import Mathlib

/-!
Shallow embedding of the jalanrusak-be report-validation and lifecycle core
(Go sources: `core/domain/entities`, `core/services`, `adapters/out/services`),
together with theorems settling the specification claims about it.

Go `string` values are modelled as Lean `String` (both are UTF-8; Go `len`
on a string is the UTF-8 byte count, i.e. `String.utf8ByteSize`).
Go `float64` coordinate values are modelled as `ℚ` where the code only
compares and stores them, and mapped into `ℝ` for the trigonometric
distance computation.  `uuid.UUID` is modelled as `String` with the zero
UUID as `""`, and `time.Time` as `Nat`; impure inputs (`uuid.New()`,
`time.Now()`) are passed explicitly.
-/

namespace JalanRusak

deriving instance DecidableEq for Except

/-! ## Report lifecycle status (core/domain/entities/damaged_road.go) -/

/-- Go `type Status string`: statuses are strings. -/
abbrev Status := String

/-- `StatusSubmitted` constant. -/
def statusSubmitted : Status := "submitted"

/-- `StatusUnderVerification` constant. -/
def statusUnderVerification : Status := "under_verification"

/-- `StatusVerified` constant. -/
def statusVerified : Status := "verified"

/-- `StatusPendingResolved` constant. -/
def statusPendingResolved : Status := "pending_resolved"

/-- `StatusResolved` constant. -/
def statusResolved : Status := "resolved"

/-- `StatusArchived` constant. -/
def statusArchived : Status := "archived"

/-- `AllStatuses()` from damaged_road.go. -/
def allStatuses : List Status :=
  [statusSubmitted, statusUnderVerification, statusVerified,
   statusPendingResolved, statusResolved, statusArchived]

/-- `Status.IsValid()` from damaged_road.go: linear scan over `AllStatuses()`. -/
def statusIsValid (s : Status) : Bool :=
  allStatuses.contains s

/-- The `allowedTransitions` map literal inside `Status.CanTransitionTo`:
a Go map lookup returns the target list together with an existence flag,
modelled as `Option`.  A status that is not a key of the map yields `none`. -/
def allowedTransitionTargets (s : Status) : Option (List Status) :=
  if s = statusSubmitted then some [statusUnderVerification]
  else if s = statusUnderVerification then some [statusVerified]
  else if s = statusVerified then some [statusPendingResolved]
  else if s = statusPendingResolved then some [statusResolved]
  else if s = statusResolved then some [statusArchived]
  else if s = statusArchived then some []
  else none

/-- `Status.CanTransitionTo(newStatus)` from damaged_road.go: look the
current status up in the transition map (`exists == false` gives `false`),
then scan the allowed target list. -/
def canTransitionTo (s newStatus : Status) : Bool :=
  match allowedTransitionTargets s with
  | none => false
  | some allowedTargets => allowedTargets.contains newStatus

/-! ## Go string helpers (strings.TrimSpace, strings.ToLower, strings.Split) -/

/-- Go `unicode.IsSpace`: the Unicode White_Space code points
(`\t \n \v \f \r ' '`, U+0085, U+00A0, U+1680, U+2000..U+200A,
U+2028, U+2029, U+202F, U+205F, U+3000), decided on the code point. -/
def goIsSpace (c : Char) : Bool :=
  decide (c.toNat = 9 ∨ c.toNat = 10 ∨ c.toNat = 11 ∨ c.toNat = 12 ∨ c.toNat = 13 ∨
    c.toNat = 32 ∨ c.toNat = 133 ∨ c.toNat = 160 ∨ c.toNat = 0x1680 ∨
    (0x2000 ≤ c.toNat ∧ c.toNat ≤ 0x200A) ∨ c.toNat = 0x2028 ∨ c.toNat = 0x2029 ∨
    c.toNat = 0x202F ∨ c.toNat = 0x205F ∨ c.toNat = 0x3000)

/-- Trim the code points satisfying `goIsSpace` from both ends of a list. -/
def goTrimList (l : List Char) : List Char :=
  ((l.dropWhile goIsSpace).reverse.dropWhile goIsSpace).reverse

/-- Go `strings.TrimSpace`: drop leading and trailing White_Space. -/
def goTrimSpace (s : String) : String :=
  String.mk (goTrimList s.data)

/-- The White_Space test of `goIsSpace` on a raw code point. -/
def goIsSpaceNat (n : Nat) : Bool :=
  decide (n = 9 ∨ n = 10 ∨ n = 11 ∨ n = 12 ∨ n = 13 ∨
    n = 32 ∨ n = 133 ∨ n = 160 ∨ n = 0x1680 ∨
    (0x2000 ≤ n ∧ n ≤ 0x200A) ∨ n = 0x2028 ∨ n = 0x2029 ∨
    n = 0x202F ∨ n = 0x205F ∨ n = 0x3000)

set_option maxHeartbeats 2000000 in
/-- The Unicode simple lowercase mappings outside ASCII (Unicode 14.0.0),
as applied rune-by-rune by Go `unicode.ToLower` (and hence
`strings.ToLower`): every code point above U+007F whose simple lowercase
differs from itself, paired with that lowercase.  U+0130 İ maps to plain
U+0069 i under the simple mapping. -/
def goLowerDelta : List (Nat × Nat) := [
  (0xC0, 0xE0), (0xC1, 0xE1), (0xC2, 0xE2), (0xC3, 0xE3), (0xC4, 0xE4), (0xC5, 0xE5),
  (0xC6, 0xE6), (0xC7, 0xE7), (0xC8, 0xE8), (0xC9, 0xE9), (0xCA, 0xEA), (0xCB, 0xEB),
  (0xCC, 0xEC), (0xCD, 0xED), (0xCE, 0xEE), (0xCF, 0xEF), (0xD0, 0xF0), (0xD1, 0xF1),
  (0xD2, 0xF2), (0xD3, 0xF3), (0xD4, 0xF4), (0xD5, 0xF5), (0xD6, 0xF6), (0xD8, 0xF8),
  (0xD9, 0xF9), (0xDA, 0xFA), (0xDB, 0xFB), (0xDC, 0xFC), (0xDD, 0xFD), (0xDE, 0xFE),
  (0x100, 0x101), (0x102, 0x103), (0x104, 0x105), (0x106, 0x107), (0x108, 0x109), (0x10A, 0x10B),
  (0x10C, 0x10D), (0x10E, 0x10F), (0x110, 0x111), (0x112, 0x113), (0x114, 0x115), (0x116, 0x117),
  (0x118, 0x119), (0x11A, 0x11B), (0x11C, 0x11D), (0x11E, 0x11F), (0x120, 0x121), (0x122, 0x123),
  (0x124, 0x125), (0x126, 0x127), (0x128, 0x129), (0x12A, 0x12B), (0x12C, 0x12D), (0x12E, 0x12F),
  (0x130, 0x69), (0x132, 0x133), (0x134, 0x135), (0x136, 0x137), (0x139, 0x13A), (0x13B, 0x13C),
  (0x13D, 0x13E), (0x13F, 0x140), (0x141, 0x142), (0x143, 0x144), (0x145, 0x146), (0x147, 0x148),
  (0x14A, 0x14B), (0x14C, 0x14D), (0x14E, 0x14F), (0x150, 0x151), (0x152, 0x153), (0x154, 0x155),
  (0x156, 0x157), (0x158, 0x159), (0x15A, 0x15B), (0x15C, 0x15D), (0x15E, 0x15F), (0x160, 0x161),
  (0x162, 0x163), (0x164, 0x165), (0x166, 0x167), (0x168, 0x169), (0x16A, 0x16B), (0x16C, 0x16D),
  (0x16E, 0x16F), (0x170, 0x171), (0x172, 0x173), (0x174, 0x175), (0x176, 0x177), (0x178, 0xFF),
  (0x179, 0x17A), (0x17B, 0x17C), (0x17D, 0x17E), (0x181, 0x253), (0x182, 0x183), (0x184, 0x185),
  (0x186, 0x254), (0x187, 0x188), (0x189, 0x256), (0x18A, 0x257), (0x18B, 0x18C), (0x18E, 0x1DD),
  (0x18F, 0x259), (0x190, 0x25B), (0x191, 0x192), (0x193, 0x260), (0x194, 0x263), (0x196, 0x269),
  (0x197, 0x268), (0x198, 0x199), (0x19C, 0x26F), (0x19D, 0x272), (0x19F, 0x275), (0x1A0, 0x1A1),
  (0x1A2, 0x1A3), (0x1A4, 0x1A5), (0x1A6, 0x280), (0x1A7, 0x1A8), (0x1A9, 0x283), (0x1AC, 0x1AD),
  (0x1AE, 0x288), (0x1AF, 0x1B0), (0x1B1, 0x28A), (0x1B2, 0x28B), (0x1B3, 0x1B4), (0x1B5, 0x1B6),
  (0x1B7, 0x292), (0x1B8, 0x1B9), (0x1BC, 0x1BD), (0x1C4, 0x1C6), (0x1C5, 0x1C6), (0x1C7, 0x1C9),
  (0x1C8, 0x1C9), (0x1CA, 0x1CC), (0x1CB, 0x1CC), (0x1CD, 0x1CE), (0x1CF, 0x1D0), (0x1D1, 0x1D2),
  (0x1D3, 0x1D4), (0x1D5, 0x1D6), (0x1D7, 0x1D8), (0x1D9, 0x1DA), (0x1DB, 0x1DC), (0x1DE, 0x1DF),
  (0x1E0, 0x1E1), (0x1E2, 0x1E3), (0x1E4, 0x1E5), (0x1E6, 0x1E7), (0x1E8, 0x1E9), (0x1EA, 0x1EB),
  (0x1EC, 0x1ED), (0x1EE, 0x1EF), (0x1F1, 0x1F3), (0x1F2, 0x1F3), (0x1F4, 0x1F5), (0x1F6, 0x195),
  (0x1F7, 0x1BF), (0x1F8, 0x1F9), (0x1FA, 0x1FB), (0x1FC, 0x1FD), (0x1FE, 0x1FF), (0x200, 0x201),
  (0x202, 0x203), (0x204, 0x205), (0x206, 0x207), (0x208, 0x209), (0x20A, 0x20B), (0x20C, 0x20D),
  (0x20E, 0x20F), (0x210, 0x211), (0x212, 0x213), (0x214, 0x215), (0x216, 0x217), (0x218, 0x219),
  (0x21A, 0x21B), (0x21C, 0x21D), (0x21E, 0x21F), (0x220, 0x19E), (0x222, 0x223), (0x224, 0x225),
  (0x226, 0x227), (0x228, 0x229), (0x22A, 0x22B), (0x22C, 0x22D), (0x22E, 0x22F), (0x230, 0x231),
  (0x232, 0x233), (0x23A, 0x2C65), (0x23B, 0x23C), (0x23D, 0x19A), (0x23E, 0x2C66), (0x241, 0x242),
  (0x243, 0x180), (0x244, 0x289), (0x245, 0x28C), (0x246, 0x247), (0x248, 0x249), (0x24A, 0x24B),
  (0x24C, 0x24D), (0x24E, 0x24F), (0x370, 0x371), (0x372, 0x373), (0x376, 0x377), (0x37F, 0x3F3),
  (0x386, 0x3AC), (0x388, 0x3AD), (0x389, 0x3AE), (0x38A, 0x3AF), (0x38C, 0x3CC), (0x38E, 0x3CD),
  (0x38F, 0x3CE), (0x391, 0x3B1), (0x392, 0x3B2), (0x393, 0x3B3), (0x394, 0x3B4), (0x395, 0x3B5),
  (0x396, 0x3B6), (0x397, 0x3B7), (0x398, 0x3B8), (0x399, 0x3B9), (0x39A, 0x3BA), (0x39B, 0x3BB),
  (0x39C, 0x3BC), (0x39D, 0x3BD), (0x39E, 0x3BE), (0x39F, 0x3BF), (0x3A0, 0x3C0), (0x3A1, 0x3C1),
  (0x3A3, 0x3C3), (0x3A4, 0x3C4), (0x3A5, 0x3C5), (0x3A6, 0x3C6), (0x3A7, 0x3C7), (0x3A8, 0x3C8),
  (0x3A9, 0x3C9), (0x3AA, 0x3CA), (0x3AB, 0x3CB), (0x3CF, 0x3D7), (0x3D8, 0x3D9), (0x3DA, 0x3DB),
  (0x3DC, 0x3DD), (0x3DE, 0x3DF), (0x3E0, 0x3E1), (0x3E2, 0x3E3), (0x3E4, 0x3E5), (0x3E6, 0x3E7),
  (0x3E8, 0x3E9), (0x3EA, 0x3EB), (0x3EC, 0x3ED), (0x3EE, 0x3EF), (0x3F4, 0x3B8), (0x3F7, 0x3F8),
  (0x3F9, 0x3F2), (0x3FA, 0x3FB), (0x3FD, 0x37B), (0x3FE, 0x37C), (0x3FF, 0x37D), (0x400, 0x450),
  (0x401, 0x451), (0x402, 0x452), (0x403, 0x453), (0x404, 0x454), (0x405, 0x455), (0x406, 0x456),
  (0x407, 0x457), (0x408, 0x458), (0x409, 0x459), (0x40A, 0x45A), (0x40B, 0x45B), (0x40C, 0x45C),
  (0x40D, 0x45D), (0x40E, 0x45E), (0x40F, 0x45F), (0x410, 0x430), (0x411, 0x431), (0x412, 0x432),
  (0x413, 0x433), (0x414, 0x434), (0x415, 0x435), (0x416, 0x436), (0x417, 0x437), (0x418, 0x438),
  (0x419, 0x439), (0x41A, 0x43A), (0x41B, 0x43B), (0x41C, 0x43C), (0x41D, 0x43D), (0x41E, 0x43E),
  (0x41F, 0x43F), (0x420, 0x440), (0x421, 0x441), (0x422, 0x442), (0x423, 0x443), (0x424, 0x444),
  (0x425, 0x445), (0x426, 0x446), (0x427, 0x447), (0x428, 0x448), (0x429, 0x449), (0x42A, 0x44A),
  (0x42B, 0x44B), (0x42C, 0x44C), (0x42D, 0x44D), (0x42E, 0x44E), (0x42F, 0x44F), (0x460, 0x461),
  (0x462, 0x463), (0x464, 0x465), (0x466, 0x467), (0x468, 0x469), (0x46A, 0x46B), (0x46C, 0x46D),
  (0x46E, 0x46F), (0x470, 0x471), (0x472, 0x473), (0x474, 0x475), (0x476, 0x477), (0x478, 0x479),
  (0x47A, 0x47B), (0x47C, 0x47D), (0x47E, 0x47F), (0x480, 0x481), (0x48A, 0x48B), (0x48C, 0x48D),
  (0x48E, 0x48F), (0x490, 0x491), (0x492, 0x493), (0x494, 0x495), (0x496, 0x497), (0x498, 0x499),
  (0x49A, 0x49B), (0x49C, 0x49D), (0x49E, 0x49F), (0x4A0, 0x4A1), (0x4A2, 0x4A3), (0x4A4, 0x4A5),
  (0x4A6, 0x4A7), (0x4A8, 0x4A9), (0x4AA, 0x4AB), (0x4AC, 0x4AD), (0x4AE, 0x4AF), (0x4B0, 0x4B1),
  (0x4B2, 0x4B3), (0x4B4, 0x4B5), (0x4B6, 0x4B7), (0x4B8, 0x4B9), (0x4BA, 0x4BB), (0x4BC, 0x4BD),
  (0x4BE, 0x4BF), (0x4C0, 0x4CF), (0x4C1, 0x4C2), (0x4C3, 0x4C4), (0x4C5, 0x4C6), (0x4C7, 0x4C8),
  (0x4C9, 0x4CA), (0x4CB, 0x4CC), (0x4CD, 0x4CE), (0x4D0, 0x4D1), (0x4D2, 0x4D3), (0x4D4, 0x4D5),
  (0x4D6, 0x4D7), (0x4D8, 0x4D9), (0x4DA, 0x4DB), (0x4DC, 0x4DD), (0x4DE, 0x4DF), (0x4E0, 0x4E1),
  (0x4E2, 0x4E3), (0x4E4, 0x4E5), (0x4E6, 0x4E7), (0x4E8, 0x4E9), (0x4EA, 0x4EB), (0x4EC, 0x4ED),
  (0x4EE, 0x4EF), (0x4F0, 0x4F1), (0x4F2, 0x4F3), (0x4F4, 0x4F5), (0x4F6, 0x4F7), (0x4F8, 0x4F9),
  (0x4FA, 0x4FB), (0x4FC, 0x4FD), (0x4FE, 0x4FF), (0x500, 0x501), (0x502, 0x503), (0x504, 0x505),
  (0x506, 0x507), (0x508, 0x509), (0x50A, 0x50B), (0x50C, 0x50D), (0x50E, 0x50F), (0x510, 0x511),
  (0x512, 0x513), (0x514, 0x515), (0x516, 0x517), (0x518, 0x519), (0x51A, 0x51B), (0x51C, 0x51D),
  (0x51E, 0x51F), (0x520, 0x521), (0x522, 0x523), (0x524, 0x525), (0x526, 0x527), (0x528, 0x529),
  (0x52A, 0x52B), (0x52C, 0x52D), (0x52E, 0x52F), (0x531, 0x561), (0x532, 0x562), (0x533, 0x563),
  (0x534, 0x564), (0x535, 0x565), (0x536, 0x566), (0x537, 0x567), (0x538, 0x568), (0x539, 0x569),
  (0x53A, 0x56A), (0x53B, 0x56B), (0x53C, 0x56C), (0x53D, 0x56D), (0x53E, 0x56E), (0x53F, 0x56F),
  (0x540, 0x570), (0x541, 0x571), (0x542, 0x572), (0x543, 0x573), (0x544, 0x574), (0x545, 0x575),
  (0x546, 0x576), (0x547, 0x577), (0x548, 0x578), (0x549, 0x579), (0x54A, 0x57A), (0x54B, 0x57B),
  (0x54C, 0x57C), (0x54D, 0x57D), (0x54E, 0x57E), (0x54F, 0x57F), (0x550, 0x580), (0x551, 0x581),
  (0x552, 0x582), (0x553, 0x583), (0x554, 0x584), (0x555, 0x585), (0x556, 0x586), (0x10A0, 0x2D00),
  (0x10A1, 0x2D01), (0x10A2, 0x2D02), (0x10A3, 0x2D03), (0x10A4, 0x2D04), (0x10A5, 0x2D05), (0x10A6, 0x2D06),
  (0x10A7, 0x2D07), (0x10A8, 0x2D08), (0x10A9, 0x2D09), (0x10AA, 0x2D0A), (0x10AB, 0x2D0B), (0x10AC, 0x2D0C),
  (0x10AD, 0x2D0D), (0x10AE, 0x2D0E), (0x10AF, 0x2D0F), (0x10B0, 0x2D10), (0x10B1, 0x2D11), (0x10B2, 0x2D12),
  (0x10B3, 0x2D13), (0x10B4, 0x2D14), (0x10B5, 0x2D15), (0x10B6, 0x2D16), (0x10B7, 0x2D17), (0x10B8, 0x2D18),
  (0x10B9, 0x2D19), (0x10BA, 0x2D1A), (0x10BB, 0x2D1B), (0x10BC, 0x2D1C), (0x10BD, 0x2D1D), (0x10BE, 0x2D1E),
  (0x10BF, 0x2D1F), (0x10C0, 0x2D20), (0x10C1, 0x2D21), (0x10C2, 0x2D22), (0x10C3, 0x2D23), (0x10C4, 0x2D24),
  (0x10C5, 0x2D25), (0x10C7, 0x2D27), (0x10CD, 0x2D2D), (0x13A0, 0xAB70), (0x13A1, 0xAB71), (0x13A2, 0xAB72),
  (0x13A3, 0xAB73), (0x13A4, 0xAB74), (0x13A5, 0xAB75), (0x13A6, 0xAB76), (0x13A7, 0xAB77), (0x13A8, 0xAB78),
  (0x13A9, 0xAB79), (0x13AA, 0xAB7A), (0x13AB, 0xAB7B), (0x13AC, 0xAB7C), (0x13AD, 0xAB7D), (0x13AE, 0xAB7E),
  (0x13AF, 0xAB7F), (0x13B0, 0xAB80), (0x13B1, 0xAB81), (0x13B2, 0xAB82), (0x13B3, 0xAB83), (0x13B4, 0xAB84),
  (0x13B5, 0xAB85), (0x13B6, 0xAB86), (0x13B7, 0xAB87), (0x13B8, 0xAB88), (0x13B9, 0xAB89), (0x13BA, 0xAB8A),
  (0x13BB, 0xAB8B), (0x13BC, 0xAB8C), (0x13BD, 0xAB8D), (0x13BE, 0xAB8E), (0x13BF, 0xAB8F), (0x13C0, 0xAB90),
  (0x13C1, 0xAB91), (0x13C2, 0xAB92), (0x13C3, 0xAB93), (0x13C4, 0xAB94), (0x13C5, 0xAB95), (0x13C6, 0xAB96),
  (0x13C7, 0xAB97), (0x13C8, 0xAB98), (0x13C9, 0xAB99), (0x13CA, 0xAB9A), (0x13CB, 0xAB9B), (0x13CC, 0xAB9C),
  (0x13CD, 0xAB9D), (0x13CE, 0xAB9E), (0x13CF, 0xAB9F), (0x13D0, 0xABA0), (0x13D1, 0xABA1), (0x13D2, 0xABA2),
  (0x13D3, 0xABA3), (0x13D4, 0xABA4), (0x13D5, 0xABA5), (0x13D6, 0xABA6), (0x13D7, 0xABA7), (0x13D8, 0xABA8),
  (0x13D9, 0xABA9), (0x13DA, 0xABAA), (0x13DB, 0xABAB), (0x13DC, 0xABAC), (0x13DD, 0xABAD), (0x13DE, 0xABAE),
  (0x13DF, 0xABAF), (0x13E0, 0xABB0), (0x13E1, 0xABB1), (0x13E2, 0xABB2), (0x13E3, 0xABB3), (0x13E4, 0xABB4),
  (0x13E5, 0xABB5), (0x13E6, 0xABB6), (0x13E7, 0xABB7), (0x13E8, 0xABB8), (0x13E9, 0xABB9), (0x13EA, 0xABBA),
  (0x13EB, 0xABBB), (0x13EC, 0xABBC), (0x13ED, 0xABBD), (0x13EE, 0xABBE), (0x13EF, 0xABBF), (0x13F0, 0x13F8),
  (0x13F1, 0x13F9), (0x13F2, 0x13FA), (0x13F3, 0x13FB), (0x13F4, 0x13FC), (0x13F5, 0x13FD), (0x1C90, 0x10D0),
  (0x1C91, 0x10D1), (0x1C92, 0x10D2), (0x1C93, 0x10D3), (0x1C94, 0x10D4), (0x1C95, 0x10D5), (0x1C96, 0x10D6),
  (0x1C97, 0x10D7), (0x1C98, 0x10D8), (0x1C99, 0x10D9), (0x1C9A, 0x10DA), (0x1C9B, 0x10DB), (0x1C9C, 0x10DC),
  (0x1C9D, 0x10DD), (0x1C9E, 0x10DE), (0x1C9F, 0x10DF), (0x1CA0, 0x10E0), (0x1CA1, 0x10E1), (0x1CA2, 0x10E2),
  (0x1CA3, 0x10E3), (0x1CA4, 0x10E4), (0x1CA5, 0x10E5), (0x1CA6, 0x10E6), (0x1CA7, 0x10E7), (0x1CA8, 0x10E8),
  (0x1CA9, 0x10E9), (0x1CAA, 0x10EA), (0x1CAB, 0x10EB), (0x1CAC, 0x10EC), (0x1CAD, 0x10ED), (0x1CAE, 0x10EE),
  (0x1CAF, 0x10EF), (0x1CB0, 0x10F0), (0x1CB1, 0x10F1), (0x1CB2, 0x10F2), (0x1CB3, 0x10F3), (0x1CB4, 0x10F4),
  (0x1CB5, 0x10F5), (0x1CB6, 0x10F6), (0x1CB7, 0x10F7), (0x1CB8, 0x10F8), (0x1CB9, 0x10F9), (0x1CBA, 0x10FA),
  (0x1CBD, 0x10FD), (0x1CBE, 0x10FE), (0x1CBF, 0x10FF), (0x1E00, 0x1E01), (0x1E02, 0x1E03), (0x1E04, 0x1E05),
  (0x1E06, 0x1E07), (0x1E08, 0x1E09), (0x1E0A, 0x1E0B), (0x1E0C, 0x1E0D), (0x1E0E, 0x1E0F), (0x1E10, 0x1E11),
  (0x1E12, 0x1E13), (0x1E14, 0x1E15), (0x1E16, 0x1E17), (0x1E18, 0x1E19), (0x1E1A, 0x1E1B), (0x1E1C, 0x1E1D),
  (0x1E1E, 0x1E1F), (0x1E20, 0x1E21), (0x1E22, 0x1E23), (0x1E24, 0x1E25), (0x1E26, 0x1E27), (0x1E28, 0x1E29),
  (0x1E2A, 0x1E2B), (0x1E2C, 0x1E2D), (0x1E2E, 0x1E2F), (0x1E30, 0x1E31), (0x1E32, 0x1E33), (0x1E34, 0x1E35),
  (0x1E36, 0x1E37), (0x1E38, 0x1E39), (0x1E3A, 0x1E3B), (0x1E3C, 0x1E3D), (0x1E3E, 0x1E3F), (0x1E40, 0x1E41),
  (0x1E42, 0x1E43), (0x1E44, 0x1E45), (0x1E46, 0x1E47), (0x1E48, 0x1E49), (0x1E4A, 0x1E4B), (0x1E4C, 0x1E4D),
  (0x1E4E, 0x1E4F), (0x1E50, 0x1E51), (0x1E52, 0x1E53), (0x1E54, 0x1E55), (0x1E56, 0x1E57), (0x1E58, 0x1E59),
  (0x1E5A, 0x1E5B), (0x1E5C, 0x1E5D), (0x1E5E, 0x1E5F), (0x1E60, 0x1E61), (0x1E62, 0x1E63), (0x1E64, 0x1E65),
  (0x1E66, 0x1E67), (0x1E68, 0x1E69), (0x1E6A, 0x1E6B), (0x1E6C, 0x1E6D), (0x1E6E, 0x1E6F), (0x1E70, 0x1E71),
  (0x1E72, 0x1E73), (0x1E74, 0x1E75), (0x1E76, 0x1E77), (0x1E78, 0x1E79), (0x1E7A, 0x1E7B), (0x1E7C, 0x1E7D),
  (0x1E7E, 0x1E7F), (0x1E80, 0x1E81), (0x1E82, 0x1E83), (0x1E84, 0x1E85), (0x1E86, 0x1E87), (0x1E88, 0x1E89),
  (0x1E8A, 0x1E8B), (0x1E8C, 0x1E8D), (0x1E8E, 0x1E8F), (0x1E90, 0x1E91), (0x1E92, 0x1E93), (0x1E94, 0x1E95),
  (0x1E9E, 0xDF), (0x1EA0, 0x1EA1), (0x1EA2, 0x1EA3), (0x1EA4, 0x1EA5), (0x1EA6, 0x1EA7), (0x1EA8, 0x1EA9),
  (0x1EAA, 0x1EAB), (0x1EAC, 0x1EAD), (0x1EAE, 0x1EAF), (0x1EB0, 0x1EB1), (0x1EB2, 0x1EB3), (0x1EB4, 0x1EB5),
  (0x1EB6, 0x1EB7), (0x1EB8, 0x1EB9), (0x1EBA, 0x1EBB), (0x1EBC, 0x1EBD), (0x1EBE, 0x1EBF), (0x1EC0, 0x1EC1),
  (0x1EC2, 0x1EC3), (0x1EC4, 0x1EC5), (0x1EC6, 0x1EC7), (0x1EC8, 0x1EC9), (0x1ECA, 0x1ECB), (0x1ECC, 0x1ECD),
  (0x1ECE, 0x1ECF), (0x1ED0, 0x1ED1), (0x1ED2, 0x1ED3), (0x1ED4, 0x1ED5), (0x1ED6, 0x1ED7), (0x1ED8, 0x1ED9),
  (0x1EDA, 0x1EDB), (0x1EDC, 0x1EDD), (0x1EDE, 0x1EDF), (0x1EE0, 0x1EE1), (0x1EE2, 0x1EE3), (0x1EE4, 0x1EE5),
  (0x1EE6, 0x1EE7), (0x1EE8, 0x1EE9), (0x1EEA, 0x1EEB), (0x1EEC, 0x1EED), (0x1EEE, 0x1EEF), (0x1EF0, 0x1EF1),
  (0x1EF2, 0x1EF3), (0x1EF4, 0x1EF5), (0x1EF6, 0x1EF7), (0x1EF8, 0x1EF9), (0x1EFA, 0x1EFB), (0x1EFC, 0x1EFD),
  (0x1EFE, 0x1EFF), (0x1F08, 0x1F00), (0x1F09, 0x1F01), (0x1F0A, 0x1F02), (0x1F0B, 0x1F03), (0x1F0C, 0x1F04),
  (0x1F0D, 0x1F05), (0x1F0E, 0x1F06), (0x1F0F, 0x1F07), (0x1F18, 0x1F10), (0x1F19, 0x1F11), (0x1F1A, 0x1F12),
  (0x1F1B, 0x1F13), (0x1F1C, 0x1F14), (0x1F1D, 0x1F15), (0x1F28, 0x1F20), (0x1F29, 0x1F21), (0x1F2A, 0x1F22),
  (0x1F2B, 0x1F23), (0x1F2C, 0x1F24), (0x1F2D, 0x1F25), (0x1F2E, 0x1F26), (0x1F2F, 0x1F27), (0x1F38, 0x1F30),
  (0x1F39, 0x1F31), (0x1F3A, 0x1F32), (0x1F3B, 0x1F33), (0x1F3C, 0x1F34), (0x1F3D, 0x1F35), (0x1F3E, 0x1F36),
  (0x1F3F, 0x1F37), (0x1F48, 0x1F40), (0x1F49, 0x1F41), (0x1F4A, 0x1F42), (0x1F4B, 0x1F43), (0x1F4C, 0x1F44),
  (0x1F4D, 0x1F45), (0x1F59, 0x1F51), (0x1F5B, 0x1F53), (0x1F5D, 0x1F55), (0x1F5F, 0x1F57), (0x1F68, 0x1F60),
  (0x1F69, 0x1F61), (0x1F6A, 0x1F62), (0x1F6B, 0x1F63), (0x1F6C, 0x1F64), (0x1F6D, 0x1F65), (0x1F6E, 0x1F66),
  (0x1F6F, 0x1F67), (0x1F88, 0x1F80), (0x1F89, 0x1F81), (0x1F8A, 0x1F82), (0x1F8B, 0x1F83), (0x1F8C, 0x1F84),
  (0x1F8D, 0x1F85), (0x1F8E, 0x1F86), (0x1F8F, 0x1F87), (0x1F98, 0x1F90), (0x1F99, 0x1F91), (0x1F9A, 0x1F92),
  (0x1F9B, 0x1F93), (0x1F9C, 0x1F94), (0x1F9D, 0x1F95), (0x1F9E, 0x1F96), (0x1F9F, 0x1F97), (0x1FA8, 0x1FA0),
  (0x1FA9, 0x1FA1), (0x1FAA, 0x1FA2), (0x1FAB, 0x1FA3), (0x1FAC, 0x1FA4), (0x1FAD, 0x1FA5), (0x1FAE, 0x1FA6),
  (0x1FAF, 0x1FA7), (0x1FB8, 0x1FB0), (0x1FB9, 0x1FB1), (0x1FBA, 0x1F70), (0x1FBB, 0x1F71), (0x1FBC, 0x1FB3),
  (0x1FC8, 0x1F72), (0x1FC9, 0x1F73), (0x1FCA, 0x1F74), (0x1FCB, 0x1F75), (0x1FCC, 0x1FC3), (0x1FD8, 0x1FD0),
  (0x1FD9, 0x1FD1), (0x1FDA, 0x1F76), (0x1FDB, 0x1F77), (0x1FE8, 0x1FE0), (0x1FE9, 0x1FE1), (0x1FEA, 0x1F7A),
  (0x1FEB, 0x1F7B), (0x1FEC, 0x1FE5), (0x1FF8, 0x1F78), (0x1FF9, 0x1F79), (0x1FFA, 0x1F7C), (0x1FFB, 0x1F7D),
  (0x1FFC, 0x1FF3), (0x2126, 0x3C9), (0x212A, 0x6B), (0x212B, 0xE5), (0x2132, 0x214E), (0x2160, 0x2170),
  (0x2161, 0x2171), (0x2162, 0x2172), (0x2163, 0x2173), (0x2164, 0x2174), (0x2165, 0x2175), (0x2166, 0x2176),
  (0x2167, 0x2177), (0x2168, 0x2178), (0x2169, 0x2179), (0x216A, 0x217A), (0x216B, 0x217B), (0x216C, 0x217C),
  (0x216D, 0x217D), (0x216E, 0x217E), (0x216F, 0x217F), (0x2183, 0x2184), (0x24B6, 0x24D0), (0x24B7, 0x24D1),
  (0x24B8, 0x24D2), (0x24B9, 0x24D3), (0x24BA, 0x24D4), (0x24BB, 0x24D5), (0x24BC, 0x24D6), (0x24BD, 0x24D7),
  (0x24BE, 0x24D8), (0x24BF, 0x24D9), (0x24C0, 0x24DA), (0x24C1, 0x24DB), (0x24C2, 0x24DC), (0x24C3, 0x24DD),
  (0x24C4, 0x24DE), (0x24C5, 0x24DF), (0x24C6, 0x24E0), (0x24C7, 0x24E1), (0x24C8, 0x24E2), (0x24C9, 0x24E3),
  (0x24CA, 0x24E4), (0x24CB, 0x24E5), (0x24CC, 0x24E6), (0x24CD, 0x24E7), (0x24CE, 0x24E8), (0x24CF, 0x24E9),
  (0x2C00, 0x2C30), (0x2C01, 0x2C31), (0x2C02, 0x2C32), (0x2C03, 0x2C33), (0x2C04, 0x2C34), (0x2C05, 0x2C35),
  (0x2C06, 0x2C36), (0x2C07, 0x2C37), (0x2C08, 0x2C38), (0x2C09, 0x2C39), (0x2C0A, 0x2C3A), (0x2C0B, 0x2C3B),
  (0x2C0C, 0x2C3C), (0x2C0D, 0x2C3D), (0x2C0E, 0x2C3E), (0x2C0F, 0x2C3F), (0x2C10, 0x2C40), (0x2C11, 0x2C41),
  (0x2C12, 0x2C42), (0x2C13, 0x2C43), (0x2C14, 0x2C44), (0x2C15, 0x2C45), (0x2C16, 0x2C46), (0x2C17, 0x2C47),
  (0x2C18, 0x2C48), (0x2C19, 0x2C49), (0x2C1A, 0x2C4A), (0x2C1B, 0x2C4B), (0x2C1C, 0x2C4C), (0x2C1D, 0x2C4D),
  (0x2C1E, 0x2C4E), (0x2C1F, 0x2C4F), (0x2C20, 0x2C50), (0x2C21, 0x2C51), (0x2C22, 0x2C52), (0x2C23, 0x2C53),
  (0x2C24, 0x2C54), (0x2C25, 0x2C55), (0x2C26, 0x2C56), (0x2C27, 0x2C57), (0x2C28, 0x2C58), (0x2C29, 0x2C59),
  (0x2C2A, 0x2C5A), (0x2C2B, 0x2C5B), (0x2C2C, 0x2C5C), (0x2C2D, 0x2C5D), (0x2C2E, 0x2C5E), (0x2C2F, 0x2C5F),
  (0x2C60, 0x2C61), (0x2C62, 0x26B), (0x2C63, 0x1D7D), (0x2C64, 0x27D), (0x2C67, 0x2C68), (0x2C69, 0x2C6A),
  (0x2C6B, 0x2C6C), (0x2C6D, 0x251), (0x2C6E, 0x271), (0x2C6F, 0x250), (0x2C70, 0x252), (0x2C72, 0x2C73),
  (0x2C75, 0x2C76), (0x2C7E, 0x23F), (0x2C7F, 0x240), (0x2C80, 0x2C81), (0x2C82, 0x2C83), (0x2C84, 0x2C85),
  (0x2C86, 0x2C87), (0x2C88, 0x2C89), (0x2C8A, 0x2C8B), (0x2C8C, 0x2C8D), (0x2C8E, 0x2C8F), (0x2C90, 0x2C91),
  (0x2C92, 0x2C93), (0x2C94, 0x2C95), (0x2C96, 0x2C97), (0x2C98, 0x2C99), (0x2C9A, 0x2C9B), (0x2C9C, 0x2C9D),
  (0x2C9E, 0x2C9F), (0x2CA0, 0x2CA1), (0x2CA2, 0x2CA3), (0x2CA4, 0x2CA5), (0x2CA6, 0x2CA7), (0x2CA8, 0x2CA9),
  (0x2CAA, 0x2CAB), (0x2CAC, 0x2CAD), (0x2CAE, 0x2CAF), (0x2CB0, 0x2CB1), (0x2CB2, 0x2CB3), (0x2CB4, 0x2CB5),
  (0x2CB6, 0x2CB7), (0x2CB8, 0x2CB9), (0x2CBA, 0x2CBB), (0x2CBC, 0x2CBD), (0x2CBE, 0x2CBF), (0x2CC0, 0x2CC1),
  (0x2CC2, 0x2CC3), (0x2CC4, 0x2CC5), (0x2CC6, 0x2CC7), (0x2CC8, 0x2CC9), (0x2CCA, 0x2CCB), (0x2CCC, 0x2CCD),
  (0x2CCE, 0x2CCF), (0x2CD0, 0x2CD1), (0x2CD2, 0x2CD3), (0x2CD4, 0x2CD5), (0x2CD6, 0x2CD7), (0x2CD8, 0x2CD9),
  (0x2CDA, 0x2CDB), (0x2CDC, 0x2CDD), (0x2CDE, 0x2CDF), (0x2CE0, 0x2CE1), (0x2CE2, 0x2CE3), (0x2CEB, 0x2CEC),
  (0x2CED, 0x2CEE), (0x2CF2, 0x2CF3), (0xA640, 0xA641), (0xA642, 0xA643), (0xA644, 0xA645), (0xA646, 0xA647),
  (0xA648, 0xA649), (0xA64A, 0xA64B), (0xA64C, 0xA64D), (0xA64E, 0xA64F), (0xA650, 0xA651), (0xA652, 0xA653),
  (0xA654, 0xA655), (0xA656, 0xA657), (0xA658, 0xA659), (0xA65A, 0xA65B), (0xA65C, 0xA65D), (0xA65E, 0xA65F),
  (0xA660, 0xA661), (0xA662, 0xA663), (0xA664, 0xA665), (0xA666, 0xA667), (0xA668, 0xA669), (0xA66A, 0xA66B),
  (0xA66C, 0xA66D), (0xA680, 0xA681), (0xA682, 0xA683), (0xA684, 0xA685), (0xA686, 0xA687), (0xA688, 0xA689),
  (0xA68A, 0xA68B), (0xA68C, 0xA68D), (0xA68E, 0xA68F), (0xA690, 0xA691), (0xA692, 0xA693), (0xA694, 0xA695),
  (0xA696, 0xA697), (0xA698, 0xA699), (0xA69A, 0xA69B), (0xA722, 0xA723), (0xA724, 0xA725), (0xA726, 0xA727),
  (0xA728, 0xA729), (0xA72A, 0xA72B), (0xA72C, 0xA72D), (0xA72E, 0xA72F), (0xA732, 0xA733), (0xA734, 0xA735),
  (0xA736, 0xA737), (0xA738, 0xA739), (0xA73A, 0xA73B), (0xA73C, 0xA73D), (0xA73E, 0xA73F), (0xA740, 0xA741),
  (0xA742, 0xA743), (0xA744, 0xA745), (0xA746, 0xA747), (0xA748, 0xA749), (0xA74A, 0xA74B), (0xA74C, 0xA74D),
  (0xA74E, 0xA74F), (0xA750, 0xA751), (0xA752, 0xA753), (0xA754, 0xA755), (0xA756, 0xA757), (0xA758, 0xA759),
  (0xA75A, 0xA75B), (0xA75C, 0xA75D), (0xA75E, 0xA75F), (0xA760, 0xA761), (0xA762, 0xA763), (0xA764, 0xA765),
  (0xA766, 0xA767), (0xA768, 0xA769), (0xA76A, 0xA76B), (0xA76C, 0xA76D), (0xA76E, 0xA76F), (0xA779, 0xA77A),
  (0xA77B, 0xA77C), (0xA77D, 0x1D79), (0xA77E, 0xA77F), (0xA780, 0xA781), (0xA782, 0xA783), (0xA784, 0xA785),
  (0xA786, 0xA787), (0xA78B, 0xA78C), (0xA78D, 0x265), (0xA790, 0xA791), (0xA792, 0xA793), (0xA796, 0xA797),
  (0xA798, 0xA799), (0xA79A, 0xA79B), (0xA79C, 0xA79D), (0xA79E, 0xA79F), (0xA7A0, 0xA7A1), (0xA7A2, 0xA7A3),
  (0xA7A4, 0xA7A5), (0xA7A6, 0xA7A7), (0xA7A8, 0xA7A9), (0xA7AA, 0x266), (0xA7AB, 0x25C), (0xA7AC, 0x261),
  (0xA7AD, 0x26C), (0xA7AE, 0x26A), (0xA7B0, 0x29E), (0xA7B1, 0x287), (0xA7B2, 0x29D), (0xA7B3, 0xAB53),
  (0xA7B4, 0xA7B5), (0xA7B6, 0xA7B7), (0xA7B8, 0xA7B9), (0xA7BA, 0xA7BB), (0xA7BC, 0xA7BD), (0xA7BE, 0xA7BF),
  (0xA7C0, 0xA7C1), (0xA7C2, 0xA7C3), (0xA7C4, 0xA794), (0xA7C5, 0x282), (0xA7C6, 0x1D8E), (0xA7C7, 0xA7C8),
  (0xA7C9, 0xA7CA), (0xA7D0, 0xA7D1), (0xA7D6, 0xA7D7), (0xA7D8, 0xA7D9), (0xA7F5, 0xA7F6), (0xFF21, 0xFF41),
  (0xFF22, 0xFF42), (0xFF23, 0xFF43), (0xFF24, 0xFF44), (0xFF25, 0xFF45), (0xFF26, 0xFF46), (0xFF27, 0xFF47),
  (0xFF28, 0xFF48), (0xFF29, 0xFF49), (0xFF2A, 0xFF4A), (0xFF2B, 0xFF4B), (0xFF2C, 0xFF4C), (0xFF2D, 0xFF4D),
  (0xFF2E, 0xFF4E), (0xFF2F, 0xFF4F), (0xFF30, 0xFF50), (0xFF31, 0xFF51), (0xFF32, 0xFF52), (0xFF33, 0xFF53),
  (0xFF34, 0xFF54), (0xFF35, 0xFF55), (0xFF36, 0xFF56), (0xFF37, 0xFF57), (0xFF38, 0xFF58), (0xFF39, 0xFF59),
  (0xFF3A, 0xFF5A), (0x10400, 0x10428), (0x10401, 0x10429), (0x10402, 0x1042A), (0x10403, 0x1042B), (0x10404, 0x1042C),
  (0x10405, 0x1042D), (0x10406, 0x1042E), (0x10407, 0x1042F), (0x10408, 0x10430), (0x10409, 0x10431), (0x1040A, 0x10432),
  (0x1040B, 0x10433), (0x1040C, 0x10434), (0x1040D, 0x10435), (0x1040E, 0x10436), (0x1040F, 0x10437), (0x10410, 0x10438),
  (0x10411, 0x10439), (0x10412, 0x1043A), (0x10413, 0x1043B), (0x10414, 0x1043C), (0x10415, 0x1043D), (0x10416, 0x1043E),
  (0x10417, 0x1043F), (0x10418, 0x10440), (0x10419, 0x10441), (0x1041A, 0x10442), (0x1041B, 0x10443), (0x1041C, 0x10444),
  (0x1041D, 0x10445), (0x1041E, 0x10446), (0x1041F, 0x10447), (0x10420, 0x10448), (0x10421, 0x10449), (0x10422, 0x1044A),
  (0x10423, 0x1044B), (0x10424, 0x1044C), (0x10425, 0x1044D), (0x10426, 0x1044E), (0x10427, 0x1044F), (0x104B0, 0x104D8),
  (0x104B1, 0x104D9), (0x104B2, 0x104DA), (0x104B3, 0x104DB), (0x104B4, 0x104DC), (0x104B5, 0x104DD), (0x104B6, 0x104DE),
  (0x104B7, 0x104DF), (0x104B8, 0x104E0), (0x104B9, 0x104E1), (0x104BA, 0x104E2), (0x104BB, 0x104E3), (0x104BC, 0x104E4),
  (0x104BD, 0x104E5), (0x104BE, 0x104E6), (0x104BF, 0x104E7), (0x104C0, 0x104E8), (0x104C1, 0x104E9), (0x104C2, 0x104EA),
  (0x104C3, 0x104EB), (0x104C4, 0x104EC), (0x104C5, 0x104ED), (0x104C6, 0x104EE), (0x104C7, 0x104EF), (0x104C8, 0x104F0),
  (0x104C9, 0x104F1), (0x104CA, 0x104F2), (0x104CB, 0x104F3), (0x104CC, 0x104F4), (0x104CD, 0x104F5), (0x104CE, 0x104F6),
  (0x104CF, 0x104F7), (0x104D0, 0x104F8), (0x104D1, 0x104F9), (0x104D2, 0x104FA), (0x104D3, 0x104FB), (0x10570, 0x10597),
  (0x10571, 0x10598), (0x10572, 0x10599), (0x10573, 0x1059A), (0x10574, 0x1059B), (0x10575, 0x1059C), (0x10576, 0x1059D),
  (0x10577, 0x1059E), (0x10578, 0x1059F), (0x10579, 0x105A0), (0x1057A, 0x105A1), (0x1057C, 0x105A3), (0x1057D, 0x105A4),
  (0x1057E, 0x105A5), (0x1057F, 0x105A6), (0x10580, 0x105A7), (0x10581, 0x105A8), (0x10582, 0x105A9), (0x10583, 0x105AA),
  (0x10584, 0x105AB), (0x10585, 0x105AC), (0x10586, 0x105AD), (0x10587, 0x105AE), (0x10588, 0x105AF), (0x10589, 0x105B0),
  (0x1058A, 0x105B1), (0x1058C, 0x105B3), (0x1058D, 0x105B4), (0x1058E, 0x105B5), (0x1058F, 0x105B6), (0x10590, 0x105B7),
  (0x10591, 0x105B8), (0x10592, 0x105B9), (0x10594, 0x105BB), (0x10595, 0x105BC), (0x10C80, 0x10CC0), (0x10C81, 0x10CC1),
  (0x10C82, 0x10CC2), (0x10C83, 0x10CC3), (0x10C84, 0x10CC4), (0x10C85, 0x10CC5), (0x10C86, 0x10CC6), (0x10C87, 0x10CC7),
  (0x10C88, 0x10CC8), (0x10C89, 0x10CC9), (0x10C8A, 0x10CCA), (0x10C8B, 0x10CCB), (0x10C8C, 0x10CCC), (0x10C8D, 0x10CCD),
  (0x10C8E, 0x10CCE), (0x10C8F, 0x10CCF), (0x10C90, 0x10CD0), (0x10C91, 0x10CD1), (0x10C92, 0x10CD2), (0x10C93, 0x10CD3),
  (0x10C94, 0x10CD4), (0x10C95, 0x10CD5), (0x10C96, 0x10CD6), (0x10C97, 0x10CD7), (0x10C98, 0x10CD8), (0x10C99, 0x10CD9),
  (0x10C9A, 0x10CDA), (0x10C9B, 0x10CDB), (0x10C9C, 0x10CDC), (0x10C9D, 0x10CDD), (0x10C9E, 0x10CDE), (0x10C9F, 0x10CDF),
  (0x10CA0, 0x10CE0), (0x10CA1, 0x10CE1), (0x10CA2, 0x10CE2), (0x10CA3, 0x10CE3), (0x10CA4, 0x10CE4), (0x10CA5, 0x10CE5),
  (0x10CA6, 0x10CE6), (0x10CA7, 0x10CE7), (0x10CA8, 0x10CE8), (0x10CA9, 0x10CE9), (0x10CAA, 0x10CEA), (0x10CAB, 0x10CEB),
  (0x10CAC, 0x10CEC), (0x10CAD, 0x10CED), (0x10CAE, 0x10CEE), (0x10CAF, 0x10CEF), (0x10CB0, 0x10CF0), (0x10CB1, 0x10CF1),
  (0x10CB2, 0x10CF2), (0x118A0, 0x118C0), (0x118A1, 0x118C1), (0x118A2, 0x118C2), (0x118A3, 0x118C3), (0x118A4, 0x118C4),
  (0x118A5, 0x118C5), (0x118A6, 0x118C6), (0x118A7, 0x118C7), (0x118A8, 0x118C8), (0x118A9, 0x118C9), (0x118AA, 0x118CA),
  (0x118AB, 0x118CB), (0x118AC, 0x118CC), (0x118AD, 0x118CD), (0x118AE, 0x118CE), (0x118AF, 0x118CF), (0x118B0, 0x118D0),
  (0x118B1, 0x118D1), (0x118B2, 0x118D2), (0x118B3, 0x118D3), (0x118B4, 0x118D4), (0x118B5, 0x118D5), (0x118B6, 0x118D6),
  (0x118B7, 0x118D7), (0x118B8, 0x118D8), (0x118B9, 0x118D9), (0x118BA, 0x118DA), (0x118BB, 0x118DB), (0x118BC, 0x118DC),
  (0x118BD, 0x118DD), (0x118BE, 0x118DE), (0x118BF, 0x118DF), (0x16E40, 0x16E60), (0x16E41, 0x16E61), (0x16E42, 0x16E62),
  (0x16E43, 0x16E63), (0x16E44, 0x16E64), (0x16E45, 0x16E65), (0x16E46, 0x16E66), (0x16E47, 0x16E67), (0x16E48, 0x16E68),
  (0x16E49, 0x16E69), (0x16E4A, 0x16E6A), (0x16E4B, 0x16E6B), (0x16E4C, 0x16E6C), (0x16E4D, 0x16E6D), (0x16E4E, 0x16E6E),
  (0x16E4F, 0x16E6F), (0x16E50, 0x16E70), (0x16E51, 0x16E71), (0x16E52, 0x16E72), (0x16E53, 0x16E73), (0x16E54, 0x16E74),
  (0x16E55, 0x16E75), (0x16E56, 0x16E76), (0x16E57, 0x16E77), (0x16E58, 0x16E78), (0x16E59, 0x16E79), (0x16E5A, 0x16E7A),
  (0x16E5B, 0x16E7B), (0x16E5C, 0x16E7C), (0x16E5D, 0x16E7D), (0x16E5E, 0x16E7E), (0x16E5F, 0x16E7F), (0x1E900, 0x1E922),
  (0x1E901, 0x1E923), (0x1E902, 0x1E924), (0x1E903, 0x1E925), (0x1E904, 0x1E926), (0x1E905, 0x1E927), (0x1E906, 0x1E928),
  (0x1E907, 0x1E929), (0x1E908, 0x1E92A), (0x1E909, 0x1E92B), (0x1E90A, 0x1E92C), (0x1E90B, 0x1E92D), (0x1E90C, 0x1E92E),
  (0x1E90D, 0x1E92F), (0x1E90E, 0x1E930), (0x1E90F, 0x1E931), (0x1E910, 0x1E932), (0x1E911, 0x1E933), (0x1E912, 0x1E934),
  (0x1E913, 0x1E935), (0x1E914, 0x1E936), (0x1E915, 0x1E937), (0x1E916, 0x1E938), (0x1E917, 0x1E939), (0x1E918, 0x1E93A),
  (0x1E919, 0x1E93B), (0x1E91A, 0x1E93C), (0x1E91B, 0x1E93D), (0x1E91C, 0x1E93E), (0x1E91D, 0x1E93F), (0x1E91E, 0x1E940),
  (0x1E91F, 0x1E941), (0x1E920, 0x1E942), (0x1E921, 0x1E943)]

/-- Go `unicode.ToLower` on one rune: the ASCII fast path lowers `A`–`Z`
arithmetically; every other rune is looked up in the simple case mapping
table and left unchanged when absent. -/
def goLowerChar (c : Char) : Char :=
  if c.toNat ≥ 65 ∧ c.toNat ≤ 90 then Char.ofNat (c.toNat + 32)
  else
    match List.lookup c.toNat goLowerDelta with
    | some v => Char.ofNat v
    | none => c

/-- Go `strings.ToLower`: `unicode.ToLower` applied to every rune. -/
def goToLower (s : String) : String :=
  String.mk (s.data.map goLowerChar)

/-- Go `strings.Split(s, ";")[0]`: the prefix of `s` before the first
`;`, or all of `s` when there is none. -/
def takeUntilSemicolon (s : String) : String :=
  String.mk (s.data.takeWhile (fun c => c ≠ ';'))

/-! ## Validation errors (core/domain/errors) -/

/-- `errors.ValidationError` (field + message; the wrapped sentinel error is
not needed by any claim and is omitted from the model). -/
structure ValidationErr where
  field : String
  message : String
deriving DecidableEq, Repr

/-- `errors.NewValidationError(field, message, err)`. -/
def newValidationError (field message : String) : ValidationErr :=
  { field := field, message := message }

/-! ## Value objects (entities: Point, Geometry, SubDistrictCode, Title, Description) -/

/-- `entities.Point`: `{Lat, Lng float64}`, coordinates modelled as `ℚ`. -/
@[ext]
structure Point where
  lat : ℚ
  lng : ℚ
deriving DecidableEq, Repr

/-- `Point.Validate()`: Indonesian bounding box, latitude checked first. -/
def pointValidate (p : Point) : Option ValidationErr :=
  if p.lat < -11 ∨ p.lat > 6 then
    some (newValidationError "lat" "latitude must be between -11 and 6 (Indonesian boundaries)")
  else if p.lng < 95 ∨ p.lng > 141 then
    some (newValidationError "lng" "longitude must be between 95 and 141 (Indonesian boundaries)")
  else none

/-- `entities.Geometry`: a PostGIS LineString, coordinates as `[lng, lat]` pairs. -/
structure Geometry where
  type : String
  coordinates : List (List ℚ)
deriving DecidableEq, Repr

/-- The per-coordinate loop of `Geometry.Validate()` carrying the index `i`:
each pair must have exactly 2 values, with latitude (second value) checked
before longitude (first value). -/
def geometryValidateCoords : Nat → List (List ℚ) → Option ValidationErr
  | _, [] => none
  | i, coord :: rest =>
    if coord.length ≠ 2 then
      some (newValidationError "coordinates"
        ("coordinate at index " ++ toString i ++ " must have exactly 2 values"))
    else
      let lng := coord.headD 0
      let lat := (coord.drop 1).headD 0
      if lat < -11 ∨ lat > 6 then
        some (newValidationError "coordinates"
          ("latitude at index " ++ toString i ++ " must be between -11 and 6"))
      else if lng < 95 ∨ lng > 141 then
        some (newValidationError "coordinates"
          ("longitude at index " ++ toString i ++ " must be between 95 and 141"))
      else geometryValidateCoords (i + 1) rest

/-- `Geometry.Validate()`. -/
def geometryValidate (g : Geometry) : Option ValidationErr :=
  if g.type ≠ "LineString" then
    some (newValidationError "type" "geometry type must be LineString")
  else if g.coordinates.length < 1 then
    some (newValidationError "coordinates" "at least 1 coordinate pair required")
  else if g.coordinates.length > 100 then
    some (newValidationError "coordinates" "cannot have more than 100 coordinate pairs")
  else geometryValidateCoords 0 g.coordinates

/-- `entities.NewGeometry(coordinates)`: build a LineString and validate it. -/
def newGeometry (coordinates : List (List ℚ)) : Except ValidationErr Geometry :=
  let g : Geometry := { type := "LineString", coordinates := coordinates }
  match geometryValidate g with
  | some e => .error e
  | none => .ok g

/-- Error shape of `entities.NewGeometryFromPoints`: a plain validation
error, or one wrapped with the offending point index
(`fmt.Errorf("invalid point at index %d: %w", i, err)`). -/
inductive PathPointsErr where
  | validation (e : ValidationErr)
  | atIndex (i : Nat) (e : ValidationErr)
deriving DecidableEq, Repr

/-- The per-point loop of `NewGeometryFromPoints`: validate each point and
emit the GeoJSON `[lng, lat]` pair. -/
def buildCoordinates : Nat → List Point → Except PathPointsErr (List (List ℚ))
  | _, [] => .ok []
  | i, p :: rest =>
    match pointValidate p with
    | some e => .error (.atIndex i e)
    | none =>
      match buildCoordinates (i + 1) rest with
      | .error e => .error e
      | .ok cs => .ok ([p.lng, p.lat] :: cs)

/-- `entities.NewGeometryFromPoints(points)`. -/
def newGeometryFromPoints (points : List Point) : Except PathPointsErr Geometry :=
  if points.length = 0 then
    .error (.validation (newValidationError "points" "at least 1 point required"))
  else if points.length > 100 then
    .error (.validation (newValidationError "points" "cannot have more than 100 points"))
  else
    match buildCoordinates 0 points with
    | .error e => .error e
    | .ok coords =>
      match newGeometry coords with
      | .error e => .error (.validation e)
      | .ok g => .ok g

/-- The format regex of `entities.SubDistrictCode`:
`^\d{2}\.\d{2}\.\d{2}\.\d{4}$` (Kemendagri `NN.NN.NN.NNNN`). -/
def codeFormatOk (s : String) : Bool :=
  match s.data with
  | [a, b, '.', c, d, '.', e, f, '.', g, h, i, j] =>
    a.isDigit && b.isDigit && c.isDigit && d.isDigit && e.isDigit && f.isDigit &&
    g.isDigit && h.isDigit && i.isDigit && j.isDigit
  | _ => false

/-- `SubDistrictCode.Validate()`. -/
def subDistrictCodeValidate (s : String) : Option ValidationErr :=
  if codeFormatOk s then none
  else some (newValidationError "subdistrict_code" "must match format NN.NN.NN.NNNN")

/-- `Title.Validate()`: Go `len(string(t))` is the UTF-8 byte count. -/
def titleValidate (t : String) : Option ValidationErr :=
  if t.utf8ByteSize < 3 then
    some (newValidationError "title" "must be at least 3 characters")
  else if t.utf8ByteSize > 100 then
    some (newValidationError "title" "cannot exceed 100 characters")
  else if goTrimSpace t = "" then
    some (newValidationError "title" "cannot be empty or whitespace only")
  else none

/-- `Description.Validate()`: Go `len(string(d))` is the UTF-8 byte count. -/
def descriptionValidate (d : String) : Option ValidationErr :=
  if d.utf8ByteSize > 500 then
    some (newValidationError "description" "cannot exceed 500 characters")
  else none

/-! ## DamagedRoad entity (core/domain/entities/damaged_road.go) -/

/-- `entities.DamagedRoad`; `uuid.UUID` as `String` (`uuid.Nil` is `""`),
timestamps as `Nat`. -/
structure DamagedRoad where
  id : String
  title : String
  subDistrictCode : String
  path : Geometry
  description : Option String
  photoURLs : List String
  authorID : String
  status : Status
  createdAt : Nat
  updatedAt : Nat
deriving DecidableEq, Repr

/-- `DamagedRoad.Validate()`: the first failing check is returned. -/
def damagedRoadValidate (d : DamagedRoad) : Option ValidationErr :=
  match titleValidate d.title with
  | some e => some e
  | none =>
  match subDistrictCodeValidate d.subDistrictCode with
  | some e => some e
  | none =>
  match geometryValidate d.path with
  | some e => some e
  | none =>
  match d.description.bind descriptionValidate with
  | some e => some e
  | none =>
  if d.photoURLs.length < 1 then
    some (newValidationError "photo_urls" "at least 1 photo URL required")
  else if d.photoURLs.length > 10 then
    some (newValidationError "photo_urls" "cannot have more than 10 photo URLs")
  else if ¬ statusIsValid d.status then
    some (newValidationError "status" "invalid status value")
  else if d.authorID = "" then
    some (newValidationError "author_id" "author ID is required")
  else none

/-- `entities.NewDamagedRoad`: build the entity with status `submitted`
and `createdAt = updatedAt = now`, then validate it.  The impure
`uuid.New()` and `time.Now()` are the `id` and `now` arguments. -/
def newDamagedRoad (title subdistrictCode : String) (path : Geometry)
    (photoURLs : List String) (authorID : String) (description : Option String)
    (id : String) (now : Nat) : Except ValidationErr DamagedRoad :=
  let road : DamagedRoad :=
    { id := id, title := title, subDistrictCode := subdistrictCode, path := path,
      description := description, photoURLs := photoURLs, authorID := authorID,
      status := statusSubmitted, createdAt := now, updatedAt := now }
  match damagedRoadValidate road with
  | some e => .error e
  | none => .ok road

/-- `DamagedRoad.UpdateStatus(newStatus)`: the Go method mutates the
receiver and returns an error; modelled as returning the road after the
call together with the optional error.  `time.Now()` is the `now`
argument. -/
def updateStatus (d : DamagedRoad) (newStatus : Status) (now : Nat) :
    DamagedRoad × Option ValidationErr :=
  if ¬ statusIsValid newStatus then
    (d, some (newValidationError "status" "invalid status value"))
  else if ¬ canTransitionTo d.status newStatus then
    (d, some (newValidationError "status"
      ("cannot transition from " ++ d.status ++ " to " ++ newStatus)))
  else
    ({ d with status := newStatus, updatedAt := now }, none)

/-! ## Photo validator (adapters/out/services/photo_validator_impl.go) -/

/-- `external.PhotoValidationResult`: `{URL, Valid, Error, ContentType, SizeBytes}`. -/
structure PhotoValidationResult where
  url : String
  valid : Bool
  error : String
  contentType : String
  sizeBytes : Int
deriving DecidableEq, Repr

/-- The accepted image media types of `isValidImageContentType`. -/
def validImageTypes : List String :=
  ["image/jpeg", "image/jpg", "image/png", "image/webp"]

/-- `isValidImageContentType(contentType)`: take the part before the first
`;`, lowercase it, trim surrounding whitespace, and scan the accepted
list. -/
def isValidImageContentType (contentType : String) : Bool :=
  validImageTypes.contains (goTrimSpace (goToLower (takeUntilSemicolon contentType)))

/-- Outcome of the HEAD probe issued by `ValidateURL` (`httpClient.Do`):
either a transport error or a response with its status code, declared
content type and advertised content length. -/
inductive ProbeOutcome where
  | failure (msg : String)
  | response (statusCode : Int) (contentType : String) (contentLength : Int)
deriving DecidableEq, Repr

/-- `photoValidatorImpl.ValidateURL(urlStr)` with its two effectful steps
abstracted as inputs: `ssrfResult` is the outcome of the `IsSecureURL`
SSRF check (`some msg` is a failure), `probe` the outcome of the HEAD
request.  The checks run in the source order: SSRF, transport, HTTP
status (must be 2xx), content type; `SizeBytes` is recorded only when a
positive content length is advertised. -/
def validateURLModel (ssrfResult : Option String) (probe : ProbeOutcome)
    (urlStr : String) : PhotoValidationResult :=
  match ssrfResult with
  | some e => { url := urlStr, valid := false, error := e, contentType := "", sizeBytes := 0 }
  | none =>
    match probe with
    | .failure msg =>
      { url := urlStr, valid := false, error := "URL not accessible: " ++ msg,
        contentType := "", sizeBytes := 0 }
    | .response statusCode contentType contentLength =>
      if statusCode < 200 ∨ 300 ≤ statusCode then
        { url := urlStr, valid := false,
          error := "HTTP " ++ toString statusCode ++ ": URL not accessible",
          contentType := "", sizeBytes := 0 }
      else if ¬ isValidImageContentType contentType then
        { url := urlStr, valid := false,
          error := "invalid content type: " ++ contentType ++
            " (expected image/jpeg, image/png, or image/webp)",
          contentType := "", sizeBytes := 0 }
      else
        { url := urlStr, valid := true, error := "", contentType := contentType,
          sizeBytes := if 0 < contentLength then contentLength else 0 }

/-- `ValidateURLs(urls)`: one independent verdict per URL, order preserved.
The per-URL effectful validation is abstracted as `validateOne`. -/
def validateURLs (validateOne : String → PhotoValidationResult)
    (urls : List String) : List PhotoValidationResult :=
  urls.map validateOne

/-! ## Geometry service (core/services geometry implementation) -/

/-- `Axis`: which coordinate of a point violated the bounding box
(the Go error message interpolates the words `latitude` / `longitude`). -/
inductive Axis where
  | lat
  | lng
deriving DecidableEq, Repr

/-- The data interpolated into the `ErrCoordinatesOutOfBounds` message of
`ValidateCoordinatesInBoundary`:
`"coordinate %d latitude %.6f is outside Indonesian bounds [%.1f, %.1f]"`. -/
structure BoundaryError where
  index : Nat
  axis : Axis
  value : ℚ
  lowerBound : ℚ
  upperBound : ℚ
deriving DecidableEq, Repr

/-- The indexed loop of `ValidateCoordinatesInBoundary`: per point, latitude
is checked against `[-11, 6]` before longitude against `[95, 141]`, and the
first violation aborts the scan. -/
def validateBoundaryAux : Nat → List Point → Except BoundaryError Unit
  | _, [] => .ok ()
  | i, p :: rest =>
    if p.lat < -11 ∨ p.lat > 6 then
      .error { index := i, axis := .lat, value := p.lat, lowerBound := -11, upperBound := 6 }
    else if p.lng < 95 ∨ p.lng > 141 then
      .error { index := i, axis := .lng, value := p.lng, lowerBound := 95, upperBound := 141 }
    else validateBoundaryAux (i + 1) rest

/-- `geometryServiceImpl.ValidateCoordinatesInBoundary(points)`. -/
def validateCoordinatesInBoundary (points : List Point) : Except BoundaryError Unit :=
  validateBoundaryAux 0 points

/-- The bounding-box property a single point must satisfy. -/
def pointInBounds (p : Point) : Prop :=
  -11 ≤ p.lat ∧ p.lat ≤ 6 ∧ 95 ≤ p.lng ∧ p.lng ≤ 141

instance (p : Point) : Decidable (pointInBounds p) := by
  unfold pointInBounds; infer_instance

/-- `earthRadiusMeters = 6371000.0`, Earth's mean radius. -/
def earthRadiusMeters : ℝ := 6371000

/-- `degreesToRadians(degrees)`: `degrees * math.Pi / 180.0`. -/
noncomputable def degreesToRadians (degrees : ℚ) : ℝ :=
  (degrees : ℝ) * Real.pi / 180

/-- Go `math.Atan2(y, x)` on finite reals (quadrant-aware arctangent). -/
noncomputable def atan2 (y x : ℝ) : ℝ :=
  if 0 < x then Real.arctan (y / x)
  else if x < 0 ∧ 0 ≤ y then Real.arctan (y / x) + Real.pi
  else if x < 0 ∧ y < 0 then Real.arctan (y / x) - Real.pi
  else if x = 0 ∧ 0 < y then Real.pi / 2
  else if x = 0 ∧ y < 0 then -(Real.pi / 2)
  else 0

/-- The local `a` of `CalculateDistance` (the haversine of the central
angle): `sin²(Δlat/2) + cos(lat1)·cos(lat2)·sin²(Δlng/2)`, with the deltas
converted from degrees. -/
noncomputable def havA (point1 point2 : Point) : ℝ :=
  Real.sin (degreesToRadians (point2.lat - point1.lat) / 2) *
    Real.sin (degreesToRadians (point2.lat - point1.lat) / 2) +
  Real.cos (degreesToRadians point1.lat) * Real.cos (degreesToRadians point2.lat) *
    (Real.sin (degreesToRadians (point2.lng - point1.lng) / 2) *
      Real.sin (degreesToRadians (point2.lng - point1.lng) / 2))

/-- `geometryServiceImpl.CalculateDistance(point1, point2)`: Haversine
great-circle distance in meters, `R · 2·atan2(√a, √(1-a))`. -/
noncomputable def calculateDistance (point1 point2 : Point) : ℝ :=
  earthRadiusMeters *
    (2 * atan2 (Real.sqrt (havA point1 point2)) (Real.sqrt (1 - havA point1 point2)))

/-- Error kinds of `ValidateCoordinatesNearCentroid`: the wrapped
`ErrSubDistrictNotFound` from the centroid lookup, or the
`ErrLocationNotInBoundary` rejection whose message interpolates the
radius, the subdistrict code and the centroid coordinates:
`"no coordinate falls within %.0f meters of subdistrict %s centroid (%.6f, %.6f)"`. -/
inductive GeoError where
  | subDistrictNotFound (code : String)
  | locationNotInBoundary (radiusMeters : ℝ) (code : String) (centroidLat centroidLng : ℚ)

/-- The scan of `ValidateCoordinatesNearCentroid`: return ok at the first
point within `radiusMeters` of the centroid; if no point qualifies, reject
with the radius, code and centroid. -/
noncomputable def nearCentroidLoop (centroid : Point) (code : String) (radiusMeters : ℝ) :
    List Point → Except GeoError Unit
  | [] => .error (.locationNotInBoundary radiusMeters code centroid.lat centroid.lng)
  | p :: rest =>
    if calculateDistance p centroid ≤ radiusMeters then .ok ()
    else nearCentroidLoop centroid code radiusMeters rest

/-- `geometryServiceImpl.ValidateCoordinatesNearCentroid(points,
subDistrictCode, radiusMeters)`; the boundary repository's
`GetCentroid` is abstracted as the lookup function `getCentroid`
(`none` models the `ErrSubDistrictNotFound` outcome). -/
noncomputable def validateCoordinatesNearCentroid
    (getCentroid : String → Option Point) (points : List Point)
    (subDistrictCode : String) (radiusMeters : ℝ) : Except GeoError Unit :=
  match getCentroid subDistrictCode with
  | none => .error (.subDistrictNotFound subDistrictCode)
  | some centroid => nearCentroidLoop centroid subDistrictCode radiusMeters points

/-- Modelled from the spec: `minDistanceToPoint(points, reference)`, the
minimum over all points of the haversine distance to the reference.  The
source has no such function (the near-centroid scan short-circuits
instead); this definition exists only to state the spec claim that the
proximity error names the computed minimum distance. -/
noncomputable def specMinDistanceToPoint (points : List Point) (reference : Point) : ℝ :=
  match points with
  | [] => 0
  | p :: rest => rest.foldl (fun acc q => min acc (calculateDistance q reference))
      (calculateDistance p reference)

/-! ## Report service (core/services report implementation) -/

/-- Error kinds surfaced by `ReportServiceImpl.CreateReport`, in the order
the source can produce them: the aggregated invalid-photo rejection
(`ErrInvalidPhotoURLs` with the `"url: reason"` list joined by `"; "`),
the boundary validation error, the wrapped `NewGeometryFromPoints` error,
the wrapped `NewDamagedRoad` error, and a repository save failure. -/
inductive CreateError where
  | invalidPhotoURLs (joined : String)
  | boundary (e : BoundaryError)
  | invalidPathPoints (e : PathPointsErr)
  | createFailed (e : ValidationErr)
  | saveFailed (msg : String)
deriving DecidableEq, Repr

/-- The collaborators held by `ReportServiceImpl`: the boundary centroid
lookup reachable through `geometrySvc` (unused by `CreateReport` itself —
the near-centroid stage is commented out), the per-URL photo validator,
and the repository save. -/
structure ReportService where
  getCentroid : String → Option Point
  validatePhotoURL : String → PhotoValidationResult
  save : DamagedRoad → Option String

/-- `ReportServiceImpl.CreateReport`, stage for stage from the source:
1. validate all photo URLs and reject on the aggregated failures;
2. validate coordinates against the Indonesian bounding box;
3. (the near-centroid / centroid-lookup stage FR-006 is commented out in
   the source and therefore absent here);
4. convert the path points to a geometry;
5. build the `DamagedRoad` entity (which re-validates every field);
6. save it.  `uuid.New()` and `time.Now()` are the `id` and `now`
arguments. -/
def createReport (svc : ReportService) (title subdistrictCode : String)
    (pathPoints : List Point) (photoURLs : List String) (authorID : String)
    (description : Option String) (id : String) (now : Nat) :
    Except CreateError DamagedRoad :=
  let photoResults := validateURLs svc.validatePhotoURL photoURLs
  let invalidPhotos := (photoResults.filter (fun r => ¬ r.valid)).map
    (fun r => r.url ++ ": " ++ r.error)
  if invalidPhotos ≠ [] then
    .error (.invalidPhotoURLs (String.intercalate "; " invalidPhotos))
  else
    match validateCoordinatesInBoundary pathPoints with
    | .error e => .error (.boundary e)
    | .ok _ =>
      match newGeometryFromPoints pathPoints with
      | .error e => .error (.invalidPathPoints e)
      | .ok geometry =>
        match newDamagedRoad title subdistrictCode geometry photoURLs authorID
            description id now with
        | .error e => .error (.createFailed e)
        | .ok road =>
          match svc.save road with
          | some msg => .error (.saveFailed msg)
          | none => .ok road

/-! ## Claim C3: the transition relation is exactly the five adjacent pairs -/

/-- C3: for every pair (from, to) of the six lifecycle states,
`CanTransitionTo` returns true iff the pair is one of exactly
Submitted→UnderVerification, UnderVerification→Verified,
Verified→PendingResolved, PendingResolved→Resolved, Resolved→Archived;
`CanTransitionTo(X, X)` is false for every state X, and Archived has no
outgoing transition (to any status value at all). -/
theorem claim_C3_canTransitionTo_exact_pairs :
    (∀ s ∈ allStatuses, ∀ t ∈ allStatuses,
      (canTransitionTo s t = true ↔
        (s, t) ∈ [(statusSubmitted, statusUnderVerification),
                  (statusUnderVerification, statusVerified),
                  (statusVerified, statusPendingResolved),
                  (statusPendingResolved, statusResolved),
                  (statusResolved, statusArchived)])) ∧
    (∀ s ∈ allStatuses, canTransitionTo s s = false) ∧
    (∀ t : Status, canTransitionTo statusArchived t = false) :=
  ⟨by decide, by decide, fun _ => rfl⟩

/-- Witness for C3 at the concrete pair Verified→PendingResolved. -/
theorem claim_C3_witness :
    statusVerified ∈ allStatuses ∧ statusPendingResolved ∈ allStatuses ∧
      canTransitionTo statusVerified statusPendingResolved = true :=
  ⟨by decide, by decide,
    (claim_C3_canTransitionTo_exact_pairs.1 statusVerified (by decide)
      statusPendingResolved (by decide)).mpr (by decide)⟩

/-! ## Claim C10: an unrecognized current status admits no transition -/

/-- C10: for every status value `s` that is not one of the six recognized
lifecycle states and every target `t`, `CanTransitionTo s t` is false:
the transition map lookup misses, and the missing-key branch returns
false rather than defaulting to any allowed transition. -/
theorem claim_C10_unknown_status_no_transition (s : Status)
    (hs : s ∉ allStatuses) (t : Status) : canTransitionTo s t = false := by
  simp only [allStatuses, List.mem_cons, List.not_mem_nil, or_false, not_or] at hs
  obtain ⟨h1, h2, h3, h4, h5, h6⟩ := hs
  simp [canTransitionTo, allowedTransitionTargets, h1, h2, h3, h4, h5, h6]

/-- Witness for C10 at a concrete corrupted status string. -/
theorem claim_C10_witness :
    "corrupted_status" ∉ allStatuses ∧
      canTransitionTo "corrupted_status" statusUnderVerification = false :=
  ⟨by decide,
    claim_C10_unknown_status_no_transition "corrupted_status" (by decide)
      statusUnderVerification⟩

/-! ## Claim C4: UpdateStatus behavior (corrected) -/

/-- Does `needle` occur as a contiguous substring of the haystack?
Used to state whether an error message names a status. -/
def containsSub (needle : List Char) : List Char → Bool
  | [] => needle.isEmpty
  | c :: rest => needle.isPrefixOf (c :: rest) || containsSub needle rest

/-- C4 counterexample: the claim says every rejection names both the
current and the attempted state.  At a report in status `submitted` and
attempted status `"bogus"`, the report is indeed left unchanged, but the
rejection message is exactly `"invalid status value"`, which names
neither the current state `submitted` nor the attempted state `bogus`. -/
theorem claim_C4_counterexample :
    updateStatus
        ⟨"id-1", "Jalan berlubang", "35.10.02.2005", ⟨"LineString", [[112, -7]]⟩,
          none, ["https://example.com/p.jpg"], "author-1", statusSubmitted, 0, 0⟩
        "bogus" 5 =
      (⟨"id-1", "Jalan berlubang", "35.10.02.2005", ⟨"LineString", [[112, -7]]⟩,
          none, ["https://example.com/p.jpg"], "author-1", statusSubmitted, 0, 0⟩,
        some (newValidationError "status" "invalid status value")) ∧
    containsSub "bogus".data "invalid status value".data = false ∧
    containsSub "submitted".data "invalid status value".data = false := by
  refine ⟨?_, by decide, by decide⟩
  decide

/-- C4 (amended): `UpdateStatus` first rejects a `newStatus` that is not a
recognized state (with the message `"invalid status value"`, which names
neither state), then rejects when `CanTransitionTo` is false (with the
message `"cannot transition from <current> to <attempted>"`, naming both
states); on success it sets the status and refreshes `updatedAt`; on
every failure the report is left unchanged. -/
theorem claim_C4_updateStatus_behavior (d : DamagedRoad) (ns : Status) (now : Nat) :
    (statusIsValid ns = false →
      updateStatus d ns now =
        (d, some (newValidationError "status" "invalid status value"))) ∧
    (statusIsValid ns = true → canTransitionTo d.status ns = false →
      updateStatus d ns now =
        (d, some (newValidationError "status"
          ("cannot transition from " ++ d.status ++ " to " ++ ns)))) ∧
    (statusIsValid ns = true → canTransitionTo d.status ns = true →
      updateStatus d ns now = ({ d with status := ns, updatedAt := now }, none)) := by
  refine ⟨fun h1 => ?_, fun h1 h2 => ?_, fun h1 h2 => ?_⟩
  · simp [updateStatus, h1]
  · simp [updateStatus, h1, h2]
  · simp [updateStatus, h1, h2]

/-- Witness for C4 at concrete inputs: one rejected unknown status and one
successful adjacent transition. -/
theorem claim_C4_witness :
    statusIsValid "bogus" = false ∧
    statusIsValid statusUnderVerification = true ∧
    canTransitionTo statusSubmitted statusUnderVerification = true ∧
    updateStatus
        ⟨"id-2", "Jalan rusak", "35.10.02.2005", ⟨"LineString", [[112, -7]]⟩,
          none, ["https://example.com/p.jpg"], "author-1", statusSubmitted, 3, 3⟩
        statusUnderVerification 9 =
      (⟨"id-2", "Jalan rusak", "35.10.02.2005", ⟨"LineString", [[112, -7]]⟩,
          none, ["https://example.com/p.jpg"], "author-1", statusUnderVerification, 3, 9⟩,
        none) :=
  ⟨by decide, by decide, by decide,
    (claim_C4_updateStatus_behavior _ statusUnderVerification 9).2.2
      (by decide) (by decide)⟩

/-! ## Claim C9: title validation (corrected: bytes, not characters) -/

/-- C9 counterexample: the claim says a title of fewer than 3 characters is
rejected.  `"éé"` is 2 characters long, but Go `len` counts UTF-8 bytes
(4 here), so `Title.Validate` accepts it. -/
theorem claim_C9_counterexample :
    titleValidate "éé" = none ∧ ("éé" : String).length = 2 ∧
      ("éé" : String).utf8ByteSize = 4 := by
  refine ⟨by decide, by decide, by decide⟩

/-- C9 (amended): `Title.Validate` accepts a title iff its UTF-8 byte
length (Go `len`) is between 3 and 100 and it is non-blank after trimming
whitespace; every rejection names the `title` field. -/
theorem claim_C9_titleValidate_iff (t : String) :
    (titleValidate t = none ↔
      (3 ≤ t.utf8ByteSize ∧ t.utf8ByteSize ≤ 100 ∧ goTrimSpace t ≠ "")) ∧
    (∀ e, titleValidate t = some e → e.field = "title") := by
  constructor
  · by_cases h1 : t.utf8ByteSize < 3
    · simp [titleValidate, h1]
    · by_cases h2 : t.utf8ByteSize > 100
      · simp [titleValidate, h1, h2]
      · by_cases h3 : goTrimSpace t = ""
        · simp [titleValidate, h1, h2, h3]
        · simp [titleValidate, h1, h2, h3]; omega
  · intro e he
    simp only [titleValidate] at he
    split at he
    · injection he with he; subst he; rfl
    · split at he
      · injection he with he; subst he; rfl
      · split at he
        · injection he with he; subst he; rfl
        · cases he

/-- Witness for C9 at concrete titles: a 2-byte title rejected with a
`title`-field error, and an accepted ordinary title. -/
theorem claim_C9_witness :
    titleValidate "ab" = some (newValidationError "title" "must be at least 3 characters") ∧
    (newValidationError "title" "must be at least 3 characters").field = "title" ∧
    titleValidate "Jalan berlubang" = none :=
  ⟨by decide, (claim_C9_titleValidate_iff "ab").2 _ (by decide),
    (claim_C9_titleValidate_iff "Jalan berlubang").1.mpr (by decide)⟩

/-! ## Claim C5: bounding-box validation -/

/-- The `ok` outcome of the boundary scan is exactly "all points in
bounds", at any starting index. -/
theorem validateBoundaryAux_ok_iff (i : Nat) (points : List Point) :
    validateBoundaryAux i points = .ok () ↔ ∀ p ∈ points, pointInBounds p := by
  induction points generalizing i with
  | nil => simp [validateBoundaryAux]
  | cons p rest ih =>
    rw [validateBoundaryAux]
    by_cases h1 : p.lat < -11 ∨ p.lat > 6
    · rw [if_pos h1]
      constructor
      · intro h; exact absurd h (by simp)
      · intro hall
        exfalso
        have hb := hall p (List.mem_cons_self p rest)
        unfold pointInBounds at hb
        rcases h1 with h1 | h1
        · linarith [hb.1]
        · linarith [hb.2.1]
    · rw [if_neg h1]
      by_cases h2 : p.lng < 95 ∨ p.lng > 141
      · rw [if_pos h2]
        constructor
        · intro h; exact absurd h (by simp)
        · intro hall
          exfalso
          have hb := hall p (List.mem_cons_self p rest)
          unfold pointInBounds at hb
          rcases h2 with h2 | h2
          · linarith [hb.2.2.1]
          · linarith [hb.2.2.2]
      · rw [if_neg h2, ih]
        push_neg at h1 h2
        constructor
        · intro h q hq
          rcases List.mem_cons.mp hq with rfl | hq
          · exact ⟨h1.1, h1.2, h2.1, h2.2⟩
          · exact h q hq
        · intro h q hq
          exact h q (List.mem_cons_of_mem p hq)

/-- The `error` outcome of the boundary scan: the reported index is the
first violating point (relative to the starting index), the axis is
latitude when the latitude bounds fail (latitude is checked first) and
longitude otherwise, and the reported value and legal range belong to
that axis. -/
theorem validateBoundaryAux_error (i : Nat) (points : List Point) (e : BoundaryError)
    (h : validateBoundaryAux i points = .error e) :
    i ≤ e.index ∧
    ∃ p, points[e.index - i]? = some p ∧
      (∀ j q, j < e.index - i → points[j]? = some q → pointInBounds q) ∧
      ((e.axis = .lat ∧ (p.lat < -11 ∨ p.lat > 6) ∧ e.value = p.lat ∧
        e.lowerBound = -11 ∧ e.upperBound = 6) ∨
       (e.axis = .lng ∧ ¬(p.lat < -11 ∨ p.lat > 6) ∧ (p.lng < 95 ∨ p.lng > 141) ∧
        e.value = p.lng ∧ e.lowerBound = 95 ∧ e.upperBound = 141)) := by
  induction points generalizing i with
  | nil => simp [validateBoundaryAux] at h
  | cons p rest ih =>
    rw [validateBoundaryAux] at h
    by_cases h1 : p.lat < -11 ∨ p.lat > 6
    · rw [if_pos h1] at h
      injection h with h
      subst h
      refine ⟨Nat.le_refl i, p, by simp, ?_, Or.inl ⟨rfl, h1, rfl, rfl, rfl⟩⟩
      intro j q hj hr
      simp at hj
    · rw [if_neg h1] at h
      by_cases h2 : p.lng < 95 ∨ p.lng > 141
      · rw [if_pos h2] at h
        injection h with h
        subst h
        refine ⟨Nat.le_refl i, p, by simp, ?_, Or.inr ⟨rfl, h1, h2, rfl, rfl, rfl⟩⟩
        intro j q hj hr
        simp at hj
      · rw [if_neg h2] at h
        obtain ⟨hle, q, hq, hprev, haxis⟩ := ih (i + 1) h
        have hk : e.index - i = (e.index - (i + 1)) + 1 := by omega
        refine ⟨by omega, q, ?_, ?_, haxis⟩
        · rw [hk]
          simpa using hq
        · intro j r hj hr
          match j with
          | 0 =>
            simp only [List.getElem?_cons_zero, Option.some.injEq] at hr
            subst hr
            push_neg at h1 h2
            exact ⟨h1.1, h1.2, h2.1, h2.2⟩
          | Nat.succ j =>
            refine hprev j r (by omega) ?_
            simpa using hr

/-- C5: `ValidateCoordinatesInBoundary` returns ok iff every point
satisfies `-11 ≤ lat ≤ 6` and `95 ≤ lng ≤ 141` (all bounds inclusive);
otherwise it fails on the first out-of-range point in list order and the
error reports that point's index, the offending axis with its value, and
the legal range for that axis. -/
theorem claim_C5_validateCoordinatesInBoundary (points : List Point) :
    (validateCoordinatesInBoundary points = .ok () ↔ ∀ p ∈ points, pointInBounds p) ∧
    (∀ e, validateCoordinatesInBoundary points = .error e →
      ∃ p, points[e.index]? = some p ∧
        (∀ j q, j < e.index → points[j]? = some q → pointInBounds q) ∧
        ((e.axis = .lat ∧ (p.lat < -11 ∨ p.lat > 6) ∧ e.value = p.lat ∧
          e.lowerBound = -11 ∧ e.upperBound = 6) ∨
         (e.axis = .lng ∧ ¬(p.lat < -11 ∨ p.lat > 6) ∧ (p.lng < 95 ∨ p.lng > 141) ∧
          e.value = p.lng ∧ e.lowerBound = 95 ∧ e.upperBound = 141))) := by
  constructor
  · exact validateBoundaryAux_ok_iff 0 points
  · intro e he
    obtain ⟨-, p, hp, hprev, haxis⟩ := validateBoundaryAux_error 0 points e he
    rw [Nat.sub_zero] at hp hprev
    exact ⟨p, hp, hprev, haxis⟩

/-- Witness for C5: the exact boundary corners pass, and a list whose
second point has latitude 7 fails at index 1 on the latitude axis with
the first point validated as in-bounds. -/
theorem claim_C5_witness :
    validateCoordinatesInBoundary
        [⟨6, 141⟩, ⟨-11, 95⟩, ⟨-7, 112⟩] = .ok () ∧
    (∃ p, ([(⟨0, 100⟩ : Point), ⟨7, 100⟩] : List Point)[
        (⟨1, Axis.lat, 7, -11, 6⟩ : BoundaryError).index]? = some p ∧
      (∀ j q, j < (⟨1, Axis.lat, 7, -11, 6⟩ : BoundaryError).index →
        ([(⟨0, 100⟩ : Point), ⟨7, 100⟩] : List Point)[j]? = some q → pointInBounds q) ∧
      (((⟨1, Axis.lat, 7, -11, 6⟩ : BoundaryError).axis = .lat ∧
        (p.lat < -11 ∨ p.lat > 6) ∧
        (⟨1, Axis.lat, 7, -11, 6⟩ : BoundaryError).value = p.lat ∧
        (⟨1, Axis.lat, 7, -11, 6⟩ : BoundaryError).lowerBound = -11 ∧
        (⟨1, Axis.lat, 7, -11, 6⟩ : BoundaryError).upperBound = 6) ∨
       ((⟨1, Axis.lat, 7, -11, 6⟩ : BoundaryError).axis = .lng ∧
        ¬(p.lat < -11 ∨ p.lat > 6) ∧ (p.lng < 95 ∨ p.lng > 141) ∧
        (⟨1, Axis.lat, 7, -11, 6⟩ : BoundaryError).value = p.lng ∧
        (⟨1, Axis.lat, 7, -11, 6⟩ : BoundaryError).lowerBound = 95 ∧
        (⟨1, Axis.lat, 7, -11, 6⟩ : BoundaryError).upperBound = 141))) :=
  ⟨(claim_C5_validateCoordinatesInBoundary _).1.mpr (by decide),
    (claim_C5_validateCoordinatesInBoundary [⟨0, 100⟩, ⟨7, 100⟩]).2
      ⟨1, Axis.lat, 7, -11, 6⟩ (by decide)⟩

/-! ## Claim C6: the content-type gate -/

/-- A successful `List.lookup` only returns entries of the table. -/
theorem lookup_mem_pairs {l : List (Nat × Nat)} {a b : Nat}
    (h : l.lookup a = some b) : (a, b) ∈ l := by
  obtain ⟨l₁, l₂, rfl, -⟩ := List.lookup_eq_some_iff.mp h
  exact List.mem_append_right l₁ (List.mem_cons_self _ _)

set_option maxRecDepth 40000 in
/-- Every entry of the lowercase table maps a non-whitespace code point
to a non-whitespace, valid code point. -/
theorem goLowerDelta_facts :
    goLowerDelta.all (fun kv => !goIsSpaceNat kv.1 && !goIsSpaceNat kv.2 &&
      decide kv.2.isValidChar) = true := by decide

/-- Unicode simple lowercasing does not create or destroy whitespace. -/
theorem goIsSpace_goLowerChar (c : Char) :
    goIsSpace (goLowerChar c) = goIsSpace c := by
  unfold goLowerChar
  split
  · next h =>
    have hval : (c.toNat + 32).isValidChar := Or.inl (by omega)
    have ht : (Char.ofNat (c.toNat + 32)).toNat = c.toNat + 32 := by
      unfold Char.ofNat
      rw [dif_pos hval]
      rfl
    unfold goIsSpace
    rw [ht, decide_eq_false (by omega), decide_eq_false (by omega)]
  · cases hl : List.lookup c.toNat goLowerDelta with
    | none => simp [hl]
    | some v =>
      have hmem : (c.toNat, v) ∈ goLowerDelta := lookup_mem_pairs hl
      have hfact := List.all_eq_true.mp goLowerDelta_facts _ hmem
      simp only [Bool.and_eq_true, Bool.not_eq_true'] at hfact
      obtain ⟨⟨hkey, hsv⟩, hvalid⟩ := hfact
      have hvc : v.isValidChar := of_decide_eq_true hvalid
      have ht : (Char.ofNat v).toNat = v := by
        unfold Char.ofNat
        rw [dif_pos hvc]
        rfl
      simp only [hl]
      show goIsSpaceNat (Char.ofNat v).toNat = goIsSpaceNat c.toNat
      rw [ht, hsv, hkey]

/-- Trimming and Unicode lowercasing of a character list commute. -/
theorem goTrimList_map_goLowerChar (l : List Char) :
    goTrimList (l.map goLowerChar) = (goTrimList l).map goLowerChar := by
  have hsp : (goIsSpace ∘ goLowerChar) = goIsSpace := funext goIsSpace_goLowerChar
  unfold goTrimList
  rw [List.dropWhile_map, hsp, ← List.map_reverse, List.dropWhile_map, hsp,
    ← List.map_reverse]

/-- `strings.TrimSpace` and `strings.ToLower` commute, so the claim's
"trim, then lowercase" normalization agrees with the source's
"lowercase, then trim". -/
theorem goTrimSpace_goToLower (s : String) :
    goTrimSpace (goToLower s) = goToLower (goTrimSpace s) := by
  show String.mk (goTrimList (s.data.map goLowerChar)) =
    String.mk ((goTrimList s.data).map goLowerChar)
  rw [goTrimList_map_goLowerChar]

set_option maxRecDepth 40000 in
/-- C6: the content-type gate accepts a declared Content-Type iff, after
discarding everything from the first `;` onward, trimming whitespace and
lowercasing (Unicode simple case mapping, as Go `strings.ToLower` does),
it equals one of `image/jpeg`, `image/jpg`, `image/png`, `image/webp`;
in `ValidateURL`, after a successful probe, a response declaring
`text/html` is rejected while `image/png; charset=binary` is accepted;
the non-ASCII declared type `İMAGE/PNG` (U+0130) is accepted because its
Unicode simple lowercase is `image/png`. -/
theorem claim_C6_content_type_gate :
    (∀ ct : String, isValidImageContentType ct = true ↔
      (goToLower (goTrimSpace (takeUntilSemicolon ct)) = "image/jpeg" ∨
       goToLower (goTrimSpace (takeUntilSemicolon ct)) = "image/jpg" ∨
       goToLower (goTrimSpace (takeUntilSemicolon ct)) = "image/png" ∨
       goToLower (goTrimSpace (takeUntilSemicolon ct)) = "image/webp")) ∧
    (validateURLModel none (.response 200 "text/html" 1024)
      "https://example.com/a.jpg").valid = false ∧
    (validateURLModel none (.response 200 "image/png; charset=binary" 1024)
      "https://example.com/b.png").valid = true ∧
    isValidImageContentType "İMAGE/PNG" = true := by
  refine ⟨fun ct => ?_, by decide, by decide, by decide⟩
  rw [isValidImageContentType, goTrimSpace_goToLower]
  simp [validImageTypes, List.contains_cons]

/-! ## Claims C1 and C2: the CreateReport pipeline -/

/-- `Point.Validate` succeeds exactly on in-bounds points. -/
theorem pointValidate_eq_none_iff (p : Point) :
    pointValidate p = none ↔ pointInBounds p := by
  unfold pointValidate pointInBounds
  by_cases h1 : p.lat < -11 ∨ p.lat > 6
  · rw [if_pos h1]
    constructor
    · intro h
      exact absurd h (by simp)
    · intro hb
      exfalso
      rcases h1 with h1 | h1
      · linarith [hb.1]
      · linarith [hb.2.1]
  · rw [if_neg h1]
    by_cases h2 : p.lng < 95 ∨ p.lng > 141
    · rw [if_pos h2]
      constructor
      · intro h
        exact absurd h (by simp)
      · intro hb
        exfalso
        rcases h2 with h2 | h2
        · linarith [hb.2.2.1]
        · linarith [hb.2.2.2]
    · rw [if_neg h2]
      push_neg at h1 h2
      simp only [true_iff]
      exact ⟨h1.1, h1.2, h2.1, h2.2⟩

/-- On an in-bounds path, the point loop of `NewGeometryFromPoints`
produces the GeoJSON `[lng, lat]` pairs. -/
theorem buildCoordinates_ok (i : Nat) (points : List Point)
    (h : ∀ p ∈ points, pointInBounds p) :
    buildCoordinates i points = .ok (points.map fun p => [p.lng, p.lat]) := by
  induction points generalizing i with
  | nil => rfl
  | cons p rest ih =>
    have hp : pointValidate p = none :=
      (pointValidate_eq_none_iff p).mpr (h p (List.mem_cons_self p rest))
    have hrest := ih (i + 1) (fun q hq => h q (List.mem_cons_of_mem p hq))
    simp only [buildCoordinates, hp, hrest, List.map_cons]

/-- On GeoJSON pairs coming from in-bounds points, the coordinate loop of
`Geometry.Validate` succeeds. -/
theorem geometryValidateCoords_map_ok (i : Nat) (points : List Point)
    (h : ∀ p ∈ points, pointInBounds p) :
    geometryValidateCoords i (points.map fun p => [p.lng, p.lat]) = none := by
  induction points generalizing i with
  | nil => rfl
  | cons p rest ih =>
    obtain ⟨hb1, hb2, hb3, hb4⟩ := h p (List.mem_cons_self p rest)
    have hA : ¬(p.lat < -11 ∨ p.lat > 6) := by
      rintro (hx | hx) <;> linarith
    have hB : ¬(p.lng < 95 ∨ p.lng > 141) := by
      rintro (hx | hx) <;> linarith
    have hrest := ih (i + 1) (fun q hq => h q (List.mem_cons_of_mem p hq))
    simp [geometryValidateCoords, hA, hB, hrest]

/-- The LineString built from a nonempty in-bounds path of at most 100
points passes `Geometry.Validate`. -/
theorem geometryValidate_map_ok (points : List Point)
    (h1 : points ≠ []) (h2 : points.length ≤ 100)
    (hb : ∀ p ∈ points, pointInBounds p) :
    geometryValidate ⟨"LineString", points.map fun p => [p.lng, p.lat]⟩ = none := by
  unfold geometryValidate
  rw [if_neg (by simp)]
  rw [if_neg (by simp [Nat.lt_one_iff, List.length_eq_zero]; exact h1)]
  rw [if_neg (by simp [Nat.not_lt]; omega)]
  exact geometryValidateCoords_map_ok 0 points hb

/-- C1 counterexample: a concrete submission whose title, description,
path points and photo URLs all validate and whose region code
`99.99.99.9999` is well-formed but absent from the boundary dataset
(the centroid lookup returns nothing for every code) is NOT rejected:
`CreateReport` returns the created report with status `submitted`. -/
theorem claim_C1_counterexample :
    codeFormatOk "99.99.99.9999" = true ∧
    ((fun _ => none : String → Option Point) "99.99.99.9999") = none ∧
    createReport
        ⟨fun _ => none, fun u => ⟨u, true, "", "image/jpeg", 0⟩, fun _ => none⟩
        "Jalan berlubang" "99.99.99.9999" [⟨-7, 112⟩]
        ["https://example.com/photo1.jpg"] "author-1" none "report-1" 0 =
      .ok ⟨"report-1", "Jalan berlubang", "99.99.99.9999",
        ⟨"LineString", [[112, -7]]⟩, none, ["https://example.com/photo1.jpg"],
        "author-1", statusSubmitted, 0, 0⟩ := by
  refine ⟨by decide, rfl, by decide⟩

/-- C1 (amended): a submission whose fields all validate but whose
well-formed region code is absent from the boundary reference dataset is
NOT rejected — the centroid-lookup/proximity stage of `CreateReport` is
commented out in the source, so the boundary dataset is never consulted:
the outcome is identical under any two centroid lookups, and the report
is created with status `submitted`. -/
theorem claim_C1_absent_region_code_accepted
    (g g2 : String → Option Point) (pv : String → PhotoValidationResult)
    (sv : DamagedRoad → Option String) (title code : String)
    (points : List Point) (urls : List String) (author : String)
    (desc : Option String) (id : String) (now : Nat)
    (hg : g code = none)
    (htitle : titleValidate title = none)
    (hcode : codeFormatOk code = true)
    (hdesc : desc.bind descriptionValidate = none)
    (hphotos : ∀ u ∈ urls, (pv u).valid = true)
    (hurls1 : urls ≠ []) (hurls2 : urls.length ≤ 10)
    (hpoints1 : points ≠ []) (hpoints2 : points.length ≤ 100)
    (hbounds : ∀ p ∈ points, pointInBounds p)
    (hauthor : author ≠ "")
    (hsave : ∀ r, sv r = none) :
    createReport ⟨g, pv, sv⟩ title code points urls author desc id now =
      .ok ⟨id, title, code, ⟨"LineString", points.map fun p => [p.lng, p.lat]⟩,
        desc, urls, author, statusSubmitted, now, now⟩ ∧
    createReport ⟨g, pv, sv⟩ title code points urls author desc id now =
      createReport ⟨g2, pv, sv⟩ title code points urls author desc id now := by
  have hfilter : (validateURLs pv urls).filter (fun r => ¬ r.valid) = [] := by
    rw [List.filter_eq_nil_iff]
    intro r hr
    obtain ⟨u, hu, rfl⟩ := List.mem_map.mp hr
    simp [hphotos u hu]
  have hbound : validateCoordinatesInBoundary points = .ok () :=
    (validateBoundaryAux_ok_iff 0 points).mpr hbounds
  have hgeomv := geometryValidate_map_ok points hpoints1 hpoints2 hbounds
  have hnew : newGeometryFromPoints points =
      .ok ⟨"LineString", points.map fun p => [p.lng, p.lat]⟩ := by
    unfold newGeometryFromPoints
    rw [if_neg (by simp [List.length_eq_zero, hpoints1])]
    rw [if_neg (by omega)]
    rw [buildCoordinates_ok 0 points hbounds]
    unfold newGeometry
    simp only [hgeomv]
  have hroadv : damagedRoadValidate
      ⟨id, title, code, ⟨"LineString", points.map fun p => [p.lng, p.lat]⟩,
        desc, urls, author, statusSubmitted, now, now⟩ = none := by
    unfold damagedRoadValidate
    simp only [htitle]
    simp only [subDistrictCodeValidate, if_pos hcode]
    simp only [hgeomv]
    simp only [hdesc]
    rw [if_neg (by simp [Nat.lt_one_iff, List.length_eq_zero]; exact hurls1)]
    rw [if_neg (by omega)]
    rw [if_neg (by simp [statusIsValid, allStatuses, statusSubmitted])]
    rw [if_neg (by simp [hauthor])]
  refine ⟨?_, rfl⟩
  simp only [createReport, hfilter, List.map_nil, ne_eq, not_true_eq_false,
    if_false, ite_false, hbound, hnew]
  simp only [newDamagedRoad, hroadv, hsave]

/-- C2 counterexample: on a submission whose single path point has
latitude 99 (out of bounds), the outcome of `CreateReport` depends on the
photo validator: with a failing photo probe the photo error is returned,
with a succeeding one the boundary error is returned.  The photo-URL
network check therefore runs FIRST — before coordinate-boundary
validation — and its failure preempts the boundary error, contradicting
the claimed field → boundary → centroid → photo order and the claim that
an earlier-stage failure prevents any photo-URL network check. -/
theorem claim_C2_counterexample :
    createReport
        ⟨fun _ => none, fun u => ⟨u, false, "unreachable", "", 0⟩, fun _ => none⟩
        "Jalan berlubang" "35.10.02.2005" [⟨99, 112⟩]
        ["https://example.com/a.jpg"] "author-1" none "report-2" 0 =
      .error (.invalidPhotoURLs "https://example.com/a.jpg: unreachable") ∧
    createReport
        ⟨fun _ => none, fun u => ⟨u, true, "", "image/jpeg", 0⟩, fun _ => none⟩
        "Jalan berlubang" "35.10.02.2005" [⟨99, 112⟩]
        ["https://example.com/a.jpg"] "author-1" none "report-2" 0 =
      .error (.boundary ⟨0, Axis.lat, 99, -11, 6⟩) := by
  refine ⟨by decide, by decide⟩

/-- C2 (amended): within `CreateReport` the stages run in the order
photo-URL validation, then coordinate-boundary validation, then geometry
construction and entity field validation (the centroid stage is
disabled): any invalid photo URL short-circuits the submission with the
aggregated photo error before the boundary check, and a boundary
violation is reported exactly when all photo URLs validate. -/
theorem claim_C2_pipeline_order (svc : ReportService) (title code : String)
    (points : List Point) (urls : List String) (author : String)
    (desc : Option String) (id : String) (now : Nat) :
    ((∃ u ∈ urls, (svc.validatePhotoURL u).valid = false) →
      ∃ msg, createReport svc title code points urls author desc id now =
        .error (.invalidPhotoURLs msg)) ∧
    ((∀ u ∈ urls, (svc.validatePhotoURL u).valid = true) →
      ∀ e, validateCoordinatesInBoundary points = .error e →
        createReport svc title code points urls author desc id now =
          .error (.boundary e)) := by
  constructor
  · rintro ⟨u, hu, hbad⟩
    have hne : (validateURLs svc.validatePhotoURL urls).filter (fun r => ¬ r.valid) ≠ [] := by
      rw [ne_eq, List.filter_eq_nil_iff]
      intro hall
      have := hall (svc.validatePhotoURL u) (List.mem_map.mpr ⟨u, hu, rfl⟩)
      simp [hbad] at this
    refine ⟨String.intercalate "; " (((validateURLs svc.validatePhotoURL urls).filter
      (fun r => ¬ r.valid)).map (fun r => r.url ++ ": " ++ r.error)), ?_⟩
    simp only [createReport]
    rw [if_pos (by simpa using hne)]
  · intro hgood e he
    have hfilter : (validateURLs svc.validatePhotoURL urls).filter (fun r => ¬ r.valid) = [] := by
      rw [List.filter_eq_nil_iff]
      intro r hr
      obtain ⟨u, hu, rfl⟩ := List.mem_map.mp hr
      simp [hgood u hu]
    simp only [createReport, hfilter, List.map_nil, ne_eq, not_true_eq_false,
      if_false, ite_false, he]

/-- Witness for C2 at concrete inputs: one submission short-circuited by
a failing photo URL, and one whose boundary violation surfaces because
the photos validate. -/
theorem claim_C2_witness :
    (∃ msg, createReport
        ⟨fun _ => none, fun u => ⟨u, false, "timeout", "", 0⟩, fun _ => none⟩
        "Jalan rusak" "35.10.02.2005" [⟨0, 100⟩] ["https://example.com/x.jpg"]
        "author-9" none "report-3" 0 =
      .error (.invalidPhotoURLs msg)) ∧
    createReport
        ⟨fun _ => none, fun u => ⟨u, true, "", "image/png", 0⟩, fun _ => none⟩
        "Jalan rusak" "35.10.02.2005" [⟨-12, 100⟩] ["https://example.com/x.jpg"]
        "author-9" none "report-4" 0 =
      .error (.boundary ⟨0, Axis.lat, -12, -11, 6⟩) :=
  ⟨(claim_C2_pipeline_order _ _ _ _ _ _ _ _ _).1
      ⟨"https://example.com/x.jpg", by simp, by decide⟩,
    (claim_C2_pipeline_order _ _ _ _ _ _ _ _ _).2
      (by intro u hu; simp at hu; subst hu; decide) _ (by decide)⟩

/-- Witness for C1 at a concrete fully-valid submission with a region
code absent from the dataset. -/
theorem claim_C1_witness :
    createReport
        ⟨fun _ => none, fun u => ⟨u, true, "", "image/jpeg", 0⟩, fun _ => none⟩
        "Jalan berlubang besar" "99.99.99.9999" [⟨-6, 107⟩]
        ["https://example.com/p.jpg"] "author-7" none "report-5" 4 =
      .ok ⟨"report-5", "Jalan berlubang besar", "99.99.99.9999",
        ⟨"LineString", [[107, -6]]⟩, none, ["https://example.com/p.jpg"],
        "author-7", statusSubmitted, 4, 4⟩ :=
  (claim_C1_absent_region_code_accepted (fun _ => none) (fun _ => none) _ _
      "Jalan berlubang besar" "99.99.99.9999" [⟨-6, 107⟩]
      ["https://example.com/p.jpg"] "author-7" none "report-5" 4
      rfl (by decide) (by decide) rfl
      (by intro u hu; simp at hu; subst hu; rfl)
      (by simp) (by simp) (by simp) (by simp)
      (by intro p hp; simp at hp; subst hp; decide)
      (by simp) (fun _ => rfl)).1

/-! ## Claim C7: Haversine symmetry and zero-iff-equal -/

/-- `arctan` is positive on positive arguments. -/
theorem arctan_pos_of_pos {x : ℝ} (hx : 0 < x) : 0 < Real.arctan x := by
  have h := Real.arctan_strictMono hx
  rwa [Real.arctan_zero] at h

/-- `atan2 0 1 = 0`. -/
theorem atan2_zero_one : atan2 0 1 = 0 := by
  unfold atan2
  rw [if_pos one_pos]
  simp [Real.arctan_zero]

/-- `atan2 1 0 = π/2`. -/
theorem atan2_one_zero : atan2 1 0 = Real.pi / 2 := by
  unfold atan2
  rw [if_neg (lt_irrefl 0), if_neg (by simp), if_neg (by simp),
    if_pos ⟨rfl, one_pos⟩]

/-- `atan2 x x = π/4` for positive `x`. -/
theorem atan2_self_pos {x : ℝ} (hx : 0 < x) : atan2 x x = Real.pi / 4 := by
  unfold atan2
  rw [if_pos hx, div_self hx.ne', Real.arctan_one]

/-- `atan2 y x` is positive when `y` is positive and `x` nonnegative. -/
theorem atan2_pos_of {y x : ℝ} (hy : 0 < y) (hx : 0 ≤ x) : 0 < atan2 y x := by
  unfold atan2
  rcases lt_or_eq_of_le hx with hx1 | hx1
  · rw [if_pos hx1]
    exact arctan_pos_of_pos (div_pos hy hx1)
  · rw [if_neg (by simp [← hx1]), if_neg (by simp [← hx1]), if_neg (by simp [← hx1]),
      if_pos ⟨hx1.symm, hy⟩]
    exact Real.pi_div_two_pos

/-- Squared sine of a half-angle is invariant under swapping the
difference's operands. -/
theorem sin_half_sq_swap (u v : ℚ) :
    Real.sin (degreesToRadians (u - v) / 2) * Real.sin (degreesToRadians (u - v) / 2) =
    Real.sin (degreesToRadians (v - u) / 2) * Real.sin (degreesToRadians (v - u) / 2) := by
  have h : degreesToRadians (u - v) / 2 = -(degreesToRadians (v - u) / 2) := by
    unfold degreesToRadians
    push_cast
    ring
  rw [h, Real.sin_neg]
  ring

/-- The haversine term of `CalculateDistance` is symmetric. -/
theorem havA_comm (p1 p2 : Point) : havA p1 p2 = havA p2 p1 := by
  unfold havA
  rw [sin_half_sq_swap p2.lat p1.lat, sin_half_sq_swap p2.lng p1.lng]
  ring

/-- The haversine term vanishes on equal points. -/
theorem havA_self (p : Point) : havA p p = 0 := by
  unfold havA degreesToRadians
  simp

/-- Degrees in `[-11, 6]` convert to radians strictly inside
`(-π/2, π/2)`, where the cosine is positive. -/
theorem cos_degreesToRadians_pos (q : ℚ) (h1 : -11 ≤ q) (h2 : q ≤ 6) :
    0 < Real.cos (degreesToRadians q) := by
  have hπ := Real.pi_pos
  apply Real.cos_pos_of_mem_Ioo
  unfold degreesToRadians
  constructor
  · have hq : (-11 : ℝ) ≤ (q : ℝ) := by exact_mod_cast h1
    have key : (-11 : ℝ) * Real.pi ≤ (q : ℝ) * Real.pi :=
      mul_le_mul_of_nonneg_right hq hπ.le
    linarith
  · have hq : (q : ℝ) ≤ 6 := by exact_mod_cast h2
    have key : (q : ℝ) * Real.pi ≤ 6 * Real.pi :=
      mul_le_mul_of_nonneg_right hq hπ.le
    linarith

/-- For a nonzero degree difference of magnitude at most 46, the squared
sine of the half-angle is positive (the half-angle lies in `(-π, 0) ∪ (0, π)`). -/
theorem sin_half_sq_pos (q : ℚ) (hne : q ≠ 0) (h1 : -46 ≤ q) (h2 : q ≤ 46) :
    0 < Real.sin (degreesToRadians q / 2) * Real.sin (degreesToRadians q / 2) := by
  have hπ := Real.pi_pos
  rcases lt_or_gt_of_ne (show (q : ℝ) ≠ 0 by exact_mod_cast hne) with hq | hq
  · have ht : degreesToRadians q / 2 < 0 := by
      unfold degreesToRadians
      have hmul : (q : ℝ) * Real.pi < 0 := mul_neg_of_neg_of_pos hq hπ
      linarith
    have hgt : -Real.pi < degreesToRadians q / 2 := by
      unfold degreesToRadians
      have hq46 : (-46 : ℝ) ≤ (q : ℝ) := by exact_mod_cast h1
      have key : (-46 : ℝ) * Real.pi ≤ (q : ℝ) * Real.pi :=
        mul_le_mul_of_nonneg_right hq46 hπ.le
      linarith
    have hs : Real.sin (degreesToRadians q / 2) < 0 := by
      have hpos := Real.sin_pos_of_pos_of_lt_pi
        (x := -(degreesToRadians q / 2)) (by linarith) (by linarith)
      rw [Real.sin_neg] at hpos
      linarith
    exact mul_pos_of_neg_of_neg hs hs
  · have ht : 0 < degreesToRadians q / 2 := by
      unfold degreesToRadians
      have hmul : 0 < (q : ℝ) * Real.pi := mul_pos hq hπ
      linarith
    have hlt : degreesToRadians q / 2 < Real.pi := by
      unfold degreesToRadians
      have hq46 : (q : ℝ) ≤ 46 := by exact_mod_cast h2
      have key : (q : ℝ) * Real.pi ≤ 46 * Real.pi :=
        mul_le_mul_of_nonneg_right hq46 hπ.le
      linarith
    have hs := Real.sin_pos_of_pos_of_lt_pi ht hlt
    exact mul_pos hs hs

/-- On distinct in-bounds points the haversine term is strictly positive. -/
theorem havA_pos (a b : Point) (ha : pointInBounds a) (hb : pointInBounds b)
    (hne : a ≠ b) : 0 < havA a b := by
  obtain ⟨ha1, ha2, ha3, ha4⟩ := ha
  obtain ⟨hb1, hb2, hb3, hb4⟩ := hb
  have hcos1 := cos_degreesToRadians_pos a.lat ha1 ha2
  have hcos2 := cos_degreesToRadians_pos b.lat hb1 hb2
  have hterm1 : 0 ≤ Real.sin (degreesToRadians (b.lat - a.lat) / 2) *
      Real.sin (degreesToRadians (b.lat - a.lat) / 2) := mul_self_nonneg _
  have hterm2 : 0 ≤ Real.cos (degreesToRadians a.lat) * Real.cos (degreesToRadians b.lat) *
      (Real.sin (degreesToRadians (b.lng - a.lng) / 2) *
        Real.sin (degreesToRadians (b.lng - a.lng) / 2)) :=
    mul_nonneg (mul_pos hcos1 hcos2).le (mul_self_nonneg _)
  by_cases hlat : a.lat = b.lat
  · have hlng : b.lng - a.lng ≠ 0 := by
      intro h0
      exact hne (Point.ext hlat (sub_eq_zero.mp h0).symm)
    have hpos2 := sin_half_sq_pos (b.lng - a.lng) hlng (by linarith) (by linarith)
    unfold havA
    nlinarith [mul_pos (mul_pos hcos1 hcos2) hpos2]
  · have hdne : b.lat - a.lat ≠ 0 := fun h => hlat (by linarith [sub_eq_zero.mp h])
    have hpos1 := sin_half_sq_pos (b.lat - a.lat) hdne (by linarith) (by linarith)
    unfold havA
    linarith

/-- C7: for all coordinate points (points satisfying the Indonesian
bounding-box invariant of the data model), `CalculateDistance` is
symmetric, and it is zero iff the two points are equal. -/
theorem claim_C7_distance_symm_zero_iff (a b : Point)
    (ha : pointInBounds a) (hb : pointInBounds b) :
    calculateDistance a b = calculateDistance b a ∧
    (calculateDistance a b = 0 ↔ a = b) := by
  constructor
  · unfold calculateDistance
    rw [havA_comm]
  · constructor
    · intro h
      by_contra hne
      have hpos := havA_pos a b ha hb hne
      have hy : 0 < Real.sqrt (havA a b) := Real.sqrt_pos.mpr hpos
      have hx : 0 ≤ Real.sqrt (1 - havA a b) := Real.sqrt_nonneg _
      have hc := atan2_pos_of hy hx
      unfold calculateDistance earthRadiusMeters at h
      linarith
    · intro h
      subst h
      unfold calculateDistance
      rw [havA_self, Real.sqrt_zero, sub_zero, Real.sqrt_one, atan2_zero_one]
      ring

/-- Witness for C7 at two concrete in-bounds points. -/
theorem claim_C7_witness :
    pointInBounds ⟨-7, 112⟩ ∧ pointInBounds ⟨6, 141⟩ ∧
    (calculateDistance ⟨-7, 112⟩ ⟨6, 141⟩ = calculateDistance ⟨6, 141⟩ ⟨-7, 112⟩ ∧
      (calculateDistance ⟨-7, 112⟩ ⟨6, 141⟩ = 0 ↔ (⟨-7, 112⟩ : Point) = ⟨6, 141⟩)) :=
  ⟨by decide, by decide,
    claim_C7_distance_symm_zero_iff ⟨-7, 112⟩ ⟨6, 141⟩ (by decide) (by decide)⟩

/-! ## Claim C8: the proximity-violation error (corrected) -/

/-- Haversine evaluation: two antipodal-latitude points at the same
longitude are half a great circle apart (`havA = 1`). -/
theorem havA_config_A : havA ⟨90, 100⟩ ⟨-90, 100⟩ = 1 := by
  have h1 : degreesToRadians ((-90 : ℚ) - 90) / 2 = -(Real.pi / 2) := by
    unfold degreesToRadians
    push_cast
    ring
  have h2 : degreesToRadians (90 : ℚ) = Real.pi / 2 := by
    unfold degreesToRadians
    push_cast
    ring
  have h3 : degreesToRadians ((100 : ℚ) - 100) / 2 = 0 := by
    unfold degreesToRadians
    push_cast
    ring
  show Real.sin (degreesToRadians ((-90 : ℚ) - 90) / 2) *
      Real.sin (degreesToRadians ((-90 : ℚ) - 90) / 2) +
    Real.cos (degreesToRadians (90 : ℚ)) * Real.cos (degreesToRadians (-90 : ℚ)) *
      (Real.sin (degreesToRadians ((100 : ℚ) - 100) / 2) *
        Real.sin (degreesToRadians ((100 : ℚ) - 100) / 2)) = 1
  rw [h1, h2, h3, Real.sin_neg, Real.sin_pi_div_two, Real.cos_pi_div_two, Real.sin_zero]
  ring

/-- `CalculateDistance ⟨90,100⟩ ⟨-90,100⟩ = 6371000·π`. -/
theorem dist_config_A : calculateDistance ⟨90, 100⟩ ⟨-90, 100⟩ = 6371000 * Real.pi := by
  unfold calculateDistance earthRadiusMeters
  rw [havA_config_A, show (1 : ℝ) - 1 = 0 by ring, Real.sqrt_zero, Real.sqrt_one,
    atan2_one_zero]
  ring

/-- Haversine evaluation for a quarter great circle (`havA = 1/2`). -/
theorem havA_config_B : havA ⟨0, -80⟩ ⟨-90, 100⟩ = 1 / 2 := by
  have h1 : degreesToRadians ((-90 : ℚ) - 0) / 2 = -(Real.pi / 4) := by
    unfold degreesToRadians
    push_cast
    ring
  have h2 : degreesToRadians (0 : ℚ) = 0 := by
    unfold degreesToRadians
    push_cast
    ring
  have h4 : degreesToRadians (-90 : ℚ) = -(Real.pi / 2) := by
    unfold degreesToRadians
    push_cast
    ring
  have hs2 : Real.sqrt 2 * Real.sqrt 2 = 2 := Real.mul_self_sqrt (by norm_num)
  show Real.sin (degreesToRadians ((-90 : ℚ) - 0) / 2) *
      Real.sin (degreesToRadians ((-90 : ℚ) - 0) / 2) +
    Real.cos (degreesToRadians (0 : ℚ)) * Real.cos (degreesToRadians (-90 : ℚ)) *
      (Real.sin (degreesToRadians ((100 : ℚ) - -80) / 2) *
        Real.sin (degreesToRadians ((100 : ℚ) - -80) / 2)) = 1 / 2
  rw [h1, h2, h4, Real.sin_neg, Real.sin_pi_div_four, Real.cos_zero, Real.cos_neg,
    Real.cos_pi_div_two]
  linear_combination hs2 / 4

/-- `CalculateDistance ⟨0,-80⟩ ⟨-90,100⟩ = 6371000·π/2`. -/
theorem dist_config_B : calculateDistance ⟨0, -80⟩ ⟨-90, 100⟩ = 6371000 * (Real.pi / 2) := by
  unfold calculateDistance earthRadiusMeters
  rw [havA_config_B, show (1 : ℝ) - 1 / 2 = 1 / 2 by ring,
    atan2_self_pos (Real.sqrt_pos.mpr (by norm_num : (0 : ℝ) < 1 / 2))]
  ring

/-- The first concrete distance exceeds the 200-meter threshold. -/
theorem dist_config_A_far : ¬ calculateDistance ⟨90, 100⟩ ⟨-90, 100⟩ ≤ 200 := by
  rw [dist_config_A]
  push_neg
  linarith [Real.pi_gt_three]

/-- The second concrete distance exceeds the 200-meter threshold. -/
theorem dist_config_B_far : ¬ calculateDistance ⟨0, -80⟩ ⟨-90, 100⟩ ≤ 200 := by
  rw [dist_config_B]
  push_neg
  linarith [Real.pi_gt_three]

/-- When every point is farther than the radius, the scan of
`ValidateCoordinatesNearCentroid` ends in the `ErrLocationNotInBoundary`
rejection carrying the radius, code and centroid. -/
theorem nearCentroidLoop_all_far (cen : Point) (code : String) (radius : ℝ)
    (points : List Point)
    (hfar : ∀ p ∈ points, ¬ calculateDistance p cen ≤ radius) :
    nearCentroidLoop cen code radius points =
      .error (.locationNotInBoundary radius code cen.lat cen.lng) := by
  induction points with
  | nil => rfl
  | cons p rest ih =>
    rw [nearCentroidLoop, if_neg (hfar p (List.mem_cons_self p rest))]
    exact ih (fun q hq => hfar q (List.mem_cons_of_mem p hq))

/-- C8 counterexample: the claim says the proximity error names the
computed minimum distance.  Two failing submissions against the same
centroid whose minimum distances differ (`6371000·π` vs `6371000·π/2`
meters) produce the SAME error value — the error carries only the
threshold, the code and the centroid, so it cannot name the minimum
distance. -/
theorem claim_C8_counterexample :
    validateCoordinatesNearCentroid (fun _ => some ⟨-90, 100⟩) [⟨90, 100⟩]
        "33.03.05.2001" 200 =
      .error (.locationNotInBoundary 200 "33.03.05.2001" (-90) 100) ∧
    validateCoordinatesNearCentroid (fun _ => some ⟨-90, 100⟩) [⟨0, -80⟩]
        "33.03.05.2001" 200 =
      .error (.locationNotInBoundary 200 "33.03.05.2001" (-90) 100) ∧
    specMinDistanceToPoint [⟨90, 100⟩] ⟨-90, 100⟩ ≠
      specMinDistanceToPoint [⟨0, -80⟩] ⟨-90, 100⟩ := by
  refine ⟨?_, ?_, ?_⟩
  · show nearCentroidLoop ⟨-90, 100⟩ "33.03.05.2001" 200 [⟨90, 100⟩] =
      .error (.locationNotInBoundary 200 "33.03.05.2001" (-90) 100)
    exact nearCentroidLoop_all_far ⟨-90, 100⟩ "33.03.05.2001" 200 [⟨90, 100⟩]
      (by
        intro p hp
        simp only [List.mem_singleton] at hp
        subst hp
        exact dist_config_A_far)
  · show nearCentroidLoop ⟨-90, 100⟩ "33.03.05.2001" 200 [⟨0, -80⟩] =
      .error (.locationNotInBoundary 200 "33.03.05.2001" (-90) 100)
    exact nearCentroidLoop_all_far ⟨-90, 100⟩ "33.03.05.2001" 200 [⟨0, -80⟩]
      (by
        intro p hp
        simp only [List.mem_singleton] at hp
        subst hp
        exact dist_config_B_far)
  · show calculateDistance ⟨90, 100⟩ ⟨-90, 100⟩ ≠ calculateDistance ⟨0, -80⟩ ⟨-90, 100⟩
    rw [dist_config_A, dist_config_B]
    intro h
    have := Real.pi_pos
    linarith

/-- C8 (amended): when `ValidateCoordinatesNearCentroid` fails because no
path point lies within the given radius of the region's centroid, the
returned error names the threshold, the subdistrict code and the centroid
coordinates — but NOT the computed minimum distance, which the source
never computes (the scan short-circuits on the first near point). -/
theorem claim_C8_proximity_error_names (getCentroid : String → Option Point)
    (points : List Point) (code : String) (radius : ℝ) (cen : Point)
    (hc : getCentroid code = some cen)
    (hfar : ∀ p ∈ points, ¬ calculateDistance p cen ≤ radius) :
    validateCoordinatesNearCentroid getCentroid points code radius =
      .error (.locationNotInBoundary radius code cen.lat cen.lng) := by
  unfold validateCoordinatesNearCentroid
  rw [hc]
  exact nearCentroidLoop_all_far cen code radius points hfar

/-- Witness for C8 at a concrete two-point path, both points far from the
centroid. -/
theorem claim_C8_witness :
    validateCoordinatesNearCentroid (fun _ => some ⟨-90, 100⟩)
        [⟨90, 100⟩, ⟨0, -80⟩] "33.03.05.2001" 200 =
      .error (.locationNotInBoundary 200 "33.03.05.2001" (-90) 100) :=
  claim_C8_proximity_error_names (fun _ => some ⟨-90, 100⟩)
    [⟨90, 100⟩, ⟨0, -80⟩] "33.03.05.2001" 200 ⟨-90, 100⟩ rfl
    (by
      intro p hp
      simp at hp
      rcases hp with hp | hp <;> subst hp
      · exact dist_config_A_far
      · exact dist_config_B_far)

end JalanRusak
